import Mathlib

/-!
# Travelar: camera, gesture and clock control of `script.js`

A shallow embedding of the interaction code of `script.js` (the event handlers
registered by `setupEventListeners`, `updateCameraPosition` and the camera part
of `animate`), followed by theorems about it.

Numbers.  JavaScript numbers are modelled as elements of a linearly ordered
field `α` (exact arithmetic: rounding and overflow are not modelled), extended
by `JSNum` with `Infinity`, `-Infinity` and `NaN` where the code divides, since
a division by zero produces them.  Pointer coordinates, wheel deltas, body
sizes and world positions are finite numbers.  The functions of the JavaScript
`Math` object that the field does not provide (`PI`, `sqrt`, `sin`, `cos`) are
passed in as a `JSMath` record; the theorems instantiate it with the real ones.

External collaborators.  The ray caster is outside the program: the handlers
receive the list of intersected objects (nearest first) that
`raycaster.intersectObjects` returned for the event.  The world position of the
focused mesh in a frame is an input of `animate`.  DOM updates
(`showPlanetInfo`, `updateSpeedUI`, button labels) are not modelled, except
that a `TypeError` raised while preparing them is recorded.
-/

namespace Travelar

/-! ## JavaScript numbers -/

/-- A JavaScript number: a finite value, `Infinity`, `-Infinity` or `NaN`. -/
inductive JSNum (α : Type) where
  | fin (x : α)
  | posInf
  | negInf
  | nan
  deriving DecidableEq, Repr

namespace JSNum

variable {α : Type} [LinearOrderedField α]

/-- The sum `a + b` of JavaScript. -/
def add : JSNum α → JSNum α → JSNum α
  | nan, _ => nan
  | _, nan => nan
  | fin a, fin b => fin (a + b)
  | fin _, posInf => posInf
  | fin _, negInf => negInf
  | posInf, fin _ => posInf
  | negInf, fin _ => negInf
  | posInf, posInf => posInf
  | negInf, negInf => negInf
  | posInf, negInf => nan
  | negInf, posInf => nan

/-- The unary minus of JavaScript. -/
def neg : JSNum α → JSNum α
  | fin a => fin (-a)
  | posInf => negInf
  | negInf => posInf
  | nan => nan

/-- The difference `a - b` of JavaScript. -/
def sub (a b : JSNum α) : JSNum α := add a (neg b)

/-- An infinity of the sign of `a`, and `NaN` for `a = 0`: the value of `a * Infinity`. -/
def signedInf (a : α) : JSNum α :=
  if 0 < a then posInf else if a < 0 then negInf else nan

/-- The product `a * b` of JavaScript. -/
def mul : JSNum α → JSNum α → JSNum α
  | nan, _ => nan
  | _, nan => nan
  | fin a, fin b => fin (a * b)
  | fin a, posInf => signedInf a
  | fin a, negInf => signedInf (-a)
  | posInf, fin b => signedInf b
  | negInf, fin b => signedInf (-b)
  | posInf, posInf => posInf
  | negInf, negInf => posInf
  | posInf, negInf => negInf
  | negInf, posInf => negInf

/-- The quotient `a / b` of two finite JavaScript numbers, the divisor being non-negative
(so that a zero divisor is `+0`): `x / 0` is an infinity of the sign of `x`, `0 / 0` is `NaN`. -/
def quot (a b : α) : JSNum α :=
  if b = 0 then signedInf a else fin (a / b)

/-- The value of `Math.max(a, b)`: `NaN` when an argument is `NaN`. -/
def max : JSNum α → JSNum α → JSNum α
  | nan, _ => nan
  | _, nan => nan
  | posInf, _ => posInf
  | _, posInf => posInf
  | negInf, b => b
  | a, negInf => a
  | fin a, fin b => fin (Max.max a b)

/-- The value of `Math.min(a, b)`: `NaN` when an argument is `NaN`. -/
def min : JSNum α → JSNum α → JSNum α
  | nan, _ => nan
  | _, nan => nan
  | negInf, _ => negInf
  | _, negInf => negInf
  | posInf, b => b
  | a, posInf => a
  | fin a, fin b => fin (Min.min a b)

instance : Add (JSNum α) := ⟨add⟩
instance : Sub (JSNum α) := ⟨sub⟩
instance : Mul (JSNum α) := ⟨mul⟩
instance : Coe α (JSNum α) := ⟨fin⟩

/-- The number is finite and lies in the closed interval `[lo, hi]`. -/
def Within (lo hi : α) : JSNum α → Prop
  | fin x => lo ≤ x ∧ x ≤ hi
  | _ => False

end JSNum

open JSNum (fin posInf negInf nan)

/-! ## Data -/

/-- The part of the `Math` object of JavaScript that an ordered field does not provide. -/
structure JSMath (α : Type) where
  PI : α
  sqrt : α → α
  sin : α → α
  cos : α → α

/-- The identity of a `THREE.Mesh` object (objects are compared with `===`). -/
abbrev Mesh := Nat

/-- The `data` record of a body; only `size` is read by the control code. -/
structure Data (α : Type) where
  size : α
  deriving DecidableEq, Repr

/-- An entry of `planets`, and the shape of `focusedPlanet`: `{ mesh, data }`
(`group` and `angle` belong to the orbital animation). -/
structure Planet (α : Type) where
  mesh : Mesh
  data : Data α
  deriving DecidableEq, Repr

/-- The globals filled in once by `init`: `sun` (by `createSun`) and `planets`
(by `createPlanets`). -/
structure Scene (α : Type) where
  sun : Option Mesh
  planets : List (Planet α)

/-- A point `{ x, y }` of the screen. -/
structure Point (α : Type) where
  x : α
  y : α
  deriving DecidableEq, Repr

/-- A `THREE.Vector3`. -/
structure Vector3 (β : Type) where
  x : β
  y : β
  z : β
  deriving DecidableEq, Repr

/-- The global `cameraRotation = { theta, phi, radius }`. -/
structure CameraRotation (α : Type) where
  theta : α
  phi : α
  radius : JSNum α
  deriving DecidableEq, Repr

/-- The camera: `camera.position` and the argument of the last `camera.lookAt`
(`none` before the first call). -/
structure Camera (α : Type) where
  position : Vector3 (JSNum α)
  lookAt : Option (Vector3 (JSNum α))
  deriving DecidableEq, Repr

/-- The mutable globals of the camera and gesture code.  `focusedPlanet` is `none` when
the JavaScript value is falsy (`null`, or `undefined` after a failed `planets.find`): the
code only tests its truthiness.  `initialPinchDistance` and `initialRadius` are `none`
when `null`. -/
structure State (α : Type) where
  focusedPlanet : Option (Planet α)
  isDragging : Bool
  previousMousePosition : Point α
  cameraRotation : CameraRotation α
  initialPinchDistance : Option α
  initialRadius : Option (JSNum α)
  camera : Camera α
  deriving DecidableEq, Repr

/-- A `MouseEvent`: `clientX`, `clientY`. -/
structure MouseEvent (α : Type) where
  clientX : α
  clientY : α
  deriving DecidableEq, Repr

/-- An entry of `event.touches`. -/
structure Touch (α : Type) where
  clientX : α
  clientY : α
  deriving DecidableEq, Repr

/-- The result of a handler that may raise: the globals as the handler left them, and
whether it ended by raising a `TypeError`. -/
structure Outcome (α : Type) where
  state : State α
  threw : Bool

/-- The clock globals `timeScale` and `isPaused`. -/
structure Clock (α : Type) where
  timeScale : α
  isPaused : Bool
  deriving DecidableEq, Repr

variable {α : Type} [LinearOrderedField α]

/-- The constant `sunData` (its `size`). -/
def sunData : Data α := ⟨30⟩

/-- The `size` entries of the constant `planetData`, Mercury to Neptune. -/
def planetData : List (Data α) :=
  [⟨2.4⟩, ⟨6.0⟩, ⟨6.3⟩, ⟨3.4⟩, ⟨16.0⟩, ⟨14.0⟩, ⟨10.0⟩, ⟨9.8⟩]

/-- The scene `init` builds: the sun mesh is object 0 and `createPlanets` pushes one
entry per element of `planetData`, with meshes 1 to 8. -/
def solarScene : Scene α :=
  ⟨some 0, planetData.enum.map fun p => ⟨p.1 + 1, p.2⟩⟩

/-- The globals as the declarations at the top of the script and `init` leave them. -/
def initialState (M : JSMath α) : State α where
  focusedPlanet := none
  isDragging := false
  previousMousePosition := ⟨0, 0⟩
  cameraRotation := ⟨M.PI / 4, M.PI / 4, fin 600⟩
  initialPinchDistance := none
  initialRadius := none
  camera := ⟨⟨fin 0, fin 300, fin 600⟩, none⟩

/-- The clock globals at start: `timeScale = 1`, `isPaused = false`. -/
def initialClock : Clock α := ⟨1, false⟩

/-! ## The camera -/

/-- The function `updateCameraPosition`. -/
def updateCameraPosition (M : JSMath α) (s : State α) : State α :=
  match s.focusedPlanet with
  | none =>
    let r := s.cameraRotation
    { s with camera :=
        { position :=
            ⟨r.radius * fin (M.sin r.phi) * fin (M.cos r.theta),
             r.radius * fin (M.cos r.phi),
             r.radius * fin (M.sin r.phi) * fin (M.sin r.theta)⟩
          lookAt := some ⟨fin 0, fin 0, fin 0⟩ } }
  | some _ => s

/-- The expression `focusedPlanet ? focusedPlanet.data.size * 2.5 : 50` of `onWheel` and
`onTouchMove`. -/
def minRadius (s : State α) : α :=
  match s.focusedPlanet with
  | some p => p.data.size * 2.5
  | none => 50

/-- The constant `maxRadius` of `onWheel` and `onTouchMove`. -/
def maxRadius : α := 3000

/-- The statement
`cameraRotation.radius = Math.max(minRadius, Math.min(maxRadius, cameraRotation.radius))`. -/
def clampRadius (s : State α) : State α :=
  { s with cameraRotation :=
      { s.cameraRotation with
        radius := JSNum.max (fin (minRadius s)) (JSNum.min (fin maxRadius) s.cameraRotation.radius) } }

/-- The statement `if (!focusedPlanet) updateCameraPosition()` that ends the updates. -/
def refreshCamera (M : JSMath α) (s : State α) : State α :=
  if s.focusedPlanet.isNone then updateCameraPosition M s else s

/-! ## Picking -/

/-- The picking block shared by `onMouseDown` and `onTouchStart`: `intersects` is what
`raycaster.intersectObjects(intersectTargets)` returned.  When the nearest object is
neither the sun nor the mesh of an entry of `planets`, `planets.find` yields `undefined`,
which is stored in `focusedPlanet`, and reading `focusedPlanet.data` raises. -/
def pick (sc : Scene α) (s : State α) (intersects : List Mesh) : Outcome α :=
  match intersects with
  | [] => ⟨s, false⟩
  | clickedMesh :: _ =>
    if sc.sun = some clickedMesh then
      ⟨{ s with focusedPlanet := some ⟨clickedMesh, sunData⟩ }, false⟩
    else
      match sc.planets.find? (fun p => p.mesh == clickedMesh) with
      | some p => ⟨{ s with focusedPlanet := some p }, false⟩
      | none => ⟨{ s with focusedPlanet := none }, true⟩

/-! ## Mouse handlers -/

/-- The handler `onMouseDown`. -/
def onMouseDown (sc : Scene α) (s : State α) (event : MouseEvent α)
    (intersects : List Mesh) : Outcome α :=
  pick sc { s with isDragging := true
                   previousMousePosition := ⟨event.clientX, event.clientY⟩ } intersects

/-- The rotation block of `onMouseMove` and `onTouchMove` for a pointer at `(x, y)`:
both angles are updated and `phi` is clamped, whatever `focusedPlanet` is. -/
def rotate (M : JSMath α) (s : State α) (x y : α) : State α :=
  let deltaX := x - s.previousMousePosition.x
  let deltaY := y - s.previousMousePosition.y
  let theta := s.cameraRotation.theta - deltaX * 0.005
  let phi := s.cameraRotation.phi - deltaY * 0.005
  let phi := Max.max 0.1 (Min.min (M.PI - 0.1) phi)
  refreshCamera M { s with cameraRotation := { s.cameraRotation with theta := theta, phi := phi } }

/-- The handler `onMouseMove`. -/
def onMouseMove (M : JSMath α) (s : State α) (event : MouseEvent α) : State α :=
  let s := if s.isDragging then rotate M s event.clientX event.clientY else s
  { s with previousMousePosition := ⟨event.clientX, event.clientY⟩ }

/-- The handler `onMouseUp`. -/
def onMouseUp (s : State α) : State α :=
  { s with isDragging := false }

/-! ## Touch handlers -/

/-- The function `getTouchDistance`, for the two touches it reads. -/
def getTouchDistance (M : JSMath α) (t0 t1 : Touch α) : α :=
  let dx := t0.clientX - t1.clientX
  let dy := t0.clientY - t1.clientY
  M.sqrt (dx * dx + dy * dy)

/-- The handler `onTouchStart`; `intersects` is used when there is exactly one touch. -/
def onTouchStart (M : JSMath α) (sc : Scene α) (s : State α) (touches : List (Touch α))
    (intersects : List Mesh) : Outcome α :=
  match touches with
  | [t] =>
    pick sc { s with isDragging := true
                     previousMousePosition := ⟨t.clientX, t.clientY⟩ } intersects
  | [t0, t1] =>
    ⟨{ s with isDragging := false
              initialPinchDistance := some (getTouchDistance M t0 t1)
              initialRadius := some s.cameraRotation.radius }, false⟩
  | _ => ⟨s, false⟩

/-- The value of `initialRadius` as a number (`null` converts to 0). -/
def toNumber : Option (JSNum α) → JSNum α
  | some r => r
  | none => fin 0

/-- The handler `onTouchMove`. -/
def onTouchMove (M : JSMath α) (s : State α) (touches : List (Touch α)) : State α :=
  match touches with
  | [t] =>
    if s.isDragging then
      { rotate M s t.clientX t.clientY with previousMousePosition := ⟨t.clientX, t.clientY⟩ }
    else s
  | [t0, t1] =>
    match s.initialPinchDistance with
    | some initialPinchDistance =>
      let currentDistance := getTouchDistance M t0 t1
      let zoomFactor := JSNum.quot initialPinchDistance currentDistance
      let s := { s with cameraRotation :=
                   { s.cameraRotation with radius := toNumber s.initialRadius * zoomFactor } }
      refreshCamera M (clampRadius s)
    | none => s
  | _ => s

/-- The handler `onTouchEnd`. -/
def onTouchEnd (s : State α) (touches : List (Touch α)) : State α :=
  match touches with
  | [] => { s with isDragging := false, initialPinchDistance := none }
  | [t] => { s with previousMousePosition := ⟨t.clientX, t.clientY⟩, isDragging := true }
  | _ => s

/-! ## Wheel, close button, frame -/

/-- The handler `onWheel`. -/
def onWheel (M : JSMath α) (s : State α) (deltaY : α) : State α :=
  let s := { s with cameraRotation :=
               { s.cameraRotation with radius := s.cameraRotation.radius + fin (deltaY * 0.5) } }
  refreshCamera M (clampRadius s)

/-- The click handler of `close-info`. -/
def closeInfo (s : State α) : State α :=
  { s with focusedPlanet := none }

/-- The value `focusFactor` of `animate` for a focused body. -/
def focusFactor (s : State α) (p : Planet α) : JSNum α :=
  JSNum.max (fin (p.data.size * 4)) (s.cameraRotation.radius * fin 0.1)

/-- The point `targetCamPos` of `animate`: `targetPos` plus the offset `(ox, oy, oz)`. -/
def targetCamPos (M : JSMath α) (s : State α) (p : Planet α) (targetPos : Vector3 α) :
    Vector3 (JSNum α) :=
  let r := s.cameraRotation
  let ox := focusFactor s p * fin (M.sin r.phi) * fin (M.cos r.theta)
  let oy := focusFactor s p * fin (M.cos r.phi)
  let oz := focusFactor s p * fin (M.sin r.phi) * fin (M.sin r.theta)
  ⟨fin targetPos.x + ox, fin targetPos.y + oy, fin targetPos.z + oz⟩

/-- The method `Vector3.lerp(v, alpha)` of three.js: each component `c` becomes
`c + (v.c - c) * alpha`. -/
def Vector3.lerp (u v : Vector3 (JSNum α)) (alpha : α) : Vector3 (JSNum α) :=
  ⟨u.x + (v.x - u.x) * fin alpha, u.y + (v.y - u.y) * fin alpha, u.z + (v.z - u.z) * fin alpha⟩

/-- The camera block of `animate`; `targetPos` is what
`focusedPlanet.mesh.getWorldPosition` returns in this frame. -/
def animate (M : JSMath α) (s : State α) (targetPos : Vector3 α) : State α :=
  match s.focusedPlanet with
  | some p =>
    { s with camera :=
        { position := s.camera.position.lerp (targetCamPos M s p targetPos) 0.05
          lookAt := some ⟨fin targetPos.x, fin targetPos.y, fin targetPos.z⟩ } }
  | none => s

/-! ## The clock buttons -/

/-- The click handler of `pause-btn`. -/
def pauseBtn (c : Clock α) : Clock α :=
  { c with isPaused := !c.isPaused }

/-- The click handler of `reverse-btn`. -/
def reverseBtn (c : Clock α) : Clock α :=
  { c with timeScale := -|c.timeScale| }

/-- The click handler of `forward-btn`. -/
def forwardBtn (c : Clock α) : Clock α :=
  let timeScale := |c.timeScale| * 1.5
  { c with timeScale := if |timeScale| > 50 then 50 else timeScale }

/-- The click handler of `play-btn`. -/
def playBtn (_c : Clock α) : Clock α :=
  { timeScale := 1, isPaused := false }

/-- The click handler of a `.speed-btn` whose `data-speed` parses to `speed`. -/
def speedBtn (c : Clock α) (speed : α) : Clock α :=
  { c with timeScale := speed * (if c.timeScale < 0 then -1 else 1) }

/-! ## Event sequences -/

/-- An event delivered to the camera and gesture code, with the data the handler reads. -/
inductive Event (α : Type) where
  | mouseDown (event : MouseEvent α) (intersects : List Mesh)
  | mouseMove (event : MouseEvent α)
  | mouseUp
  | touchStart (touches : List (Touch α)) (intersects : List Mesh)
  | touchMove (touches : List (Touch α))
  | touchEnd (touches : List (Touch α))
  | wheel (deltaY : α)
  | closeInfo
  | frame (targetPos : Vector3 α)

/-- The globals after the handler of one event has run (a raised `TypeError` ends the
handler and leaves the globals as they are at that point). -/
def step (M : JSMath α) (sc : Scene α) (s : State α) : Event α → State α
  | .mouseDown e hits => (onMouseDown sc s e hits).state
  | .mouseMove e => onMouseMove M s e
  | .mouseUp => onMouseUp s
  | .touchStart ts hits => (onTouchStart M sc s ts hits).state
  | .touchMove ts => onTouchMove M s ts
  | .touchEnd ts => onTouchEnd s ts
  | .wheel d => onWheel M s d
  | .closeInfo => closeInfo s
  | .frame p => animate M s p

/-- The globals after a sequence of events, in arrival order. -/
def run (M : JSMath α) (sc : Scene α) (s : State α) (events : List (Event α)) : State α :=
  events.foldl (step M sc) s

/-- A click on one of the clock buttons. -/
inductive ClockEvent (α : Type) where
  | pause
  | reverse
  | forward
  | play
  | speed (value : α)

/-- The clock globals after one click. -/
def clockStep (c : Clock α) : ClockEvent α → Clock α
  | .pause => pauseBtn c
  | .reverse => reverseBtn c
  | .forward => forwardBtn c
  | .play => playBtn c
  | .speed v => speedBtn c v

/-- The clock globals after a sequence of clicks. -/
def clockRun (c : Clock α) (events : List (ClockEvent α)) : Clock α :=
  events.foldl clockStep c

/-! ## Predicates and named values used by the theorems -/

/-- The polar angle lies in the interval the clamp of `rotate` enforces. -/
def PhiInRange (M : JSMath α) (s : State α) : Prop :=
  0.1 ≤ s.cameraRotation.phi ∧ s.cameraRotation.phi ≤ M.PI - 0.1

/-- The entry of `planets` for Earth in `solarScene`. -/
def earth : Planet α := ⟨3, ⟨6.3⟩⟩

/-- The event is a `touchstart` with exactly two touches. -/
def Event.isPinchStart : Event α → Bool
  | .touchStart [_, _] _ => true
  | _ => false

/-- The event rewrites `cameraRotation.radius` in state `s`: a wheel event, or a
`touchmove` with two touches while `initialPinchDistance` is not `null`. -/
def Event.writesRadius (s : State α) : Event α → Bool
  | .wheel _ => true
  | .touchMove [_, _] => s.initialPinchDistance.isSome
  | _ => false

/-- The two touches of a two-touch `touchmove` are apart: their distance is not 0
(every other event satisfies this). -/
def Event.TouchesApart (M : JSMath α) : Event α → Prop
  | .touchMove [t0, t1] => getTouchDistance M t0 t1 ≠ 0
  | _ => True

/-- Every entry of `planets` has `2.5 * size` between `lo` and 3000. -/
def Scene.SizesWithin (sc : Scene α) (lo : α) : Prop :=
  ∀ p ∈ sc.planets, lo ≤ p.data.size * 2.5 ∧ p.data.size * 2.5 ≤ 3000

/-- The radius is finite and in `[lo, 3000]`, the minimum radius of the focused body is in
`[lo, 3000]`, and the radius recorded at pinch start is finite. -/
def RadiusInv (lo : α) (s : State α) : Prop :=
  JSNum.Within lo 3000 s.cameraRotation.radius ∧
  (lo ≤ minRadius s ∧ minRadius s ≤ 3000) ∧
  ∀ r0, s.initialRadius = some r0 → ∃ x, r0 = fin x

/-- The ring of Saturn: a mesh that `createPlanets` adds as a child of Saturn's mesh
(`mesh.add(ring)`); it is neither `sun` nor the `mesh` of an entry of `planets`. -/
def saturnRing : Mesh := 9

/-- Modelled from the spec: the `data-speed` values of the `.speed-btn` buttons, which are
declared in the page and not in the script; the spec gives the preset set
0.5, 1, 2, 5, 10, 25, 50. -/
def speedPresets : List α := [0.5, 1, 2, 5, 10, 25, 50]

/-- A click on a speed button carries one of the presets (every other click qualifies). -/
def ClockEvent.IsPreset : ClockEvent α → Prop
  | .speed v => v ∈ (speedPresets : List α)
  | _ => True

/-! ## Basic facts about JavaScript numbers -/

namespace JSNum

@[simp] theorem fin_add_fin (a b : α) : (fin a + fin b : JSNum α) = fin (a + b) := rfl

@[simp] theorem fin_sub_fin (a b : α) : (fin a - fin b : JSNum α) = fin (a - b) := by
  show add (fin a) (neg (fin b)) = fin (a - b)
  simp [add, neg, sub_eq_add_neg]

@[simp] theorem fin_mul_fin (a b : α) : (fin a * fin b : JSNum α) = fin (a * b) := rfl

@[simp] theorem nan_mul (b : JSNum α) : (nan * b : JSNum α) = nan := by
  cases b <;> rfl

@[simp] theorem nan_add (b : JSNum α) : (nan + b : JSNum α) = nan := by
  cases b <;> rfl

@[simp] theorem max_fin_fin (a b : α) : max (fin a) (fin b) = fin (Max.max a b) := rfl

@[simp] theorem min_fin_fin (a b : α) : min (fin a) (fin b) = fin (Min.min a b) := rfl

@[simp] theorem min_fin_nan (a : α) : min (fin a) (nan : JSNum α) = nan := rfl

@[simp] theorem max_fin_nan (a : α) : max (fin a) (nan : JSNum α) = nan := rfl

@[simp] theorem quot_of_ne (a : α) {b : α} (h : b ≠ 0) : quot a b = fin (a / b) := by
  simp [quot, h]

@[simp] theorem quot_zero_zero : quot (0 : α) 0 = nan := by
  simp [quot, signedInf]

@[simp] theorem within_fin (lo hi x : α) : Within lo hi (fin x) ↔ lo ≤ x ∧ x ≤ hi := Iff.rfl

theorem within_iff (lo hi : α) (r : JSNum α) :
    Within lo hi r ↔ ∃ x, r = fin x ∧ lo ≤ x ∧ x ≤ hi := by
  cases r <;> simp [Within]

end JSNum

/-! ## What each handler leaves alone -/

section Frame

variable (M : JSMath α) (sc : Scene α) (s : State α)

@[simp] theorem updateCameraPosition_focusedPlanet :
    (updateCameraPosition M s).focusedPlanet = s.focusedPlanet := by
  unfold updateCameraPosition; split <;> rfl

@[simp] theorem updateCameraPosition_isDragging :
    (updateCameraPosition M s).isDragging = s.isDragging := by
  unfold updateCameraPosition; split <;> rfl

@[simp] theorem updateCameraPosition_previousMousePosition :
    (updateCameraPosition M s).previousMousePosition = s.previousMousePosition := by
  unfold updateCameraPosition; split <;> rfl

@[simp] theorem updateCameraPosition_cameraRotation :
    (updateCameraPosition M s).cameraRotation = s.cameraRotation := by
  unfold updateCameraPosition; split <;> rfl

@[simp] theorem updateCameraPosition_initialPinchDistance :
    (updateCameraPosition M s).initialPinchDistance = s.initialPinchDistance := by
  unfold updateCameraPosition; split <;> rfl

@[simp] theorem updateCameraPosition_initialRadius :
    (updateCameraPosition M s).initialRadius = s.initialRadius := by
  unfold updateCameraPosition; split <;> rfl

@[simp] theorem refreshCamera_focusedPlanet :
    (refreshCamera M s).focusedPlanet = s.focusedPlanet := by
  unfold refreshCamera; split <;> simp

@[simp] theorem refreshCamera_isDragging :
    (refreshCamera M s).isDragging = s.isDragging := by
  unfold refreshCamera; split <;> simp

@[simp] theorem refreshCamera_previousMousePosition :
    (refreshCamera M s).previousMousePosition = s.previousMousePosition := by
  unfold refreshCamera; split <;> simp

@[simp] theorem refreshCamera_cameraRotation :
    (refreshCamera M s).cameraRotation = s.cameraRotation := by
  unfold refreshCamera; split <;> simp

@[simp] theorem refreshCamera_initialPinchDistance :
    (refreshCamera M s).initialPinchDistance = s.initialPinchDistance := by
  unfold refreshCamera; split <;> simp

@[simp] theorem refreshCamera_initialRadius :
    (refreshCamera M s).initialRadius = s.initialRadius := by
  unfold refreshCamera; split <;> simp

theorem refreshCamera_of_focused {p : Planet α} (h : s.focusedPlanet = some p) :
    refreshCamera M s = s := by
  simp [refreshCamera, h]

@[simp] theorem clampRadius_focusedPlanet : (clampRadius s).focusedPlanet = s.focusedPlanet := rfl

@[simp] theorem clampRadius_isDragging : (clampRadius s).isDragging = s.isDragging := rfl

@[simp] theorem clampRadius_theta :
    (clampRadius s).cameraRotation.theta = s.cameraRotation.theta := rfl

@[simp] theorem clampRadius_phi :
    (clampRadius s).cameraRotation.phi = s.cameraRotation.phi := rfl

@[simp] theorem clampRadius_radius :
    (clampRadius s).cameraRotation.radius =
      JSNum.max (fin (minRadius s)) (JSNum.min (fin maxRadius) s.cameraRotation.radius) := rfl

variable (hits : List Mesh)

@[simp] theorem pick_isDragging : (pick sc s hits).state.isDragging = s.isDragging := by
  unfold pick; split
  · rfl
  · split
    · rfl
    · split <;> rfl

@[simp] theorem pick_previousMousePosition :
    (pick sc s hits).state.previousMousePosition = s.previousMousePosition := by
  unfold pick; split
  · rfl
  · split
    · rfl
    · split <;> rfl

@[simp] theorem pick_cameraRotation :
    (pick sc s hits).state.cameraRotation = s.cameraRotation := by
  unfold pick; split
  · rfl
  · split
    · rfl
    · split <;> rfl

@[simp] theorem pick_initialPinchDistance :
    (pick sc s hits).state.initialPinchDistance = s.initialPinchDistance := by
  unfold pick; split
  · rfl
  · split
    · rfl
    · split <;> rfl

@[simp] theorem pick_initialRadius :
    (pick sc s hits).state.initialRadius = s.initialRadius := by
  unfold pick; split
  · rfl
  · split
    · rfl
    · split <;> rfl

@[simp] theorem pick_camera : (pick sc s hits).state.camera = s.camera := by
  unfold pick; split
  · rfl
  · split
    · rfl
    · split <;> rfl

@[simp] theorem pick_nil : pick sc s [] = ⟨s, false⟩ := rfl

@[simp] theorem rotate_theta (x y : α) :
    (rotate M s x y).cameraRotation.theta =
      s.cameraRotation.theta - (x - s.previousMousePosition.x) * 0.005 := by
  simp [rotate]

@[simp] theorem rotate_phi (x y : α) :
    (rotate M s x y).cameraRotation.phi =
      Max.max 0.1 (Min.min (M.PI - 0.1)
        (s.cameraRotation.phi - (y - s.previousMousePosition.y) * 0.005)) := by
  simp [rotate]

@[simp] theorem rotate_radius (x y : α) :
    (rotate M s x y).cameraRotation.radius = s.cameraRotation.radius := by
  simp [rotate]

@[simp] theorem rotate_focusedPlanet (x y : α) :
    (rotate M s x y).focusedPlanet = s.focusedPlanet := by
  simp [rotate]

@[simp] theorem rotate_isDragging (x y : α) :
    (rotate M s x y).isDragging = s.isDragging := by
  simp [rotate]

@[simp] theorem rotate_initialPinchDistance (x y : α) :
    (rotate M s x y).initialPinchDistance = s.initialPinchDistance := by
  simp [rotate]

/-- An invariant of every handler holds after every sequence of events. -/
theorem run_invariant (P : State α → Prop)
    (hstep : ∀ s e, P s → P (step M sc s e)) :
    ∀ (events : List (Event α)) (s : State α), P s → P (run M sc s events) := by
  intro events
  induction events with
  | nil => intro s h; exact h
  | cons e es ih => intro s h; exact ih _ (hstep s e h)

theorem run_append (es fs : List (Event α)) :
    run M sc s (es ++ fs) = run M sc (run M sc s es) fs := by
  simp [run, List.foldl_append]

end Frame

/-! ## Polar angle (C2) -/

theorem rotate_phiInRange (M : JSMath α) (hPI : (0.2 : α) ≤ M.PI) (s : State α) (x y : α) :
    PhiInRange M (rotate M s x y) := by
  unfold PhiInRange
  rw [rotate_phi]
  refine ⟨le_max_left _ _, max_le ?_ (min_le_left _ _)⟩
  linarith

theorem step_phiInRange (M : JSMath α) (hPI : (0.2 : α) ≤ M.PI) (sc : Scene α) (s : State α)
    (e : Event α) (h : PhiInRange M s) : PhiInRange M (step M sc s e) := by
  cases e with
  | mouseDown ev hits => simpa [step, onMouseDown, PhiInRange] using h
  | mouseMove ev =>
    simp only [step, onMouseMove]
    split
    · exact rotate_phiInRange M hPI s _ _
    · exact h
  | mouseUp => exact h
  | touchStart ts hits =>
    simp only [step, onTouchStart]
    split
    · simpa [PhiInRange] using h
    · exact h
    · exact h
  | touchMove ts =>
    simp only [step, onTouchMove]
    split
    · split
      · exact rotate_phiInRange M hPI s _ _
      · exact h
    · split
      · simpa [PhiInRange] using h
      · exact h
    · exact h
  | touchEnd ts =>
    simp only [step, onTouchEnd]
    split <;> exact h
  | wheel d => simpa [step, onWheel, PhiInRange] using h
  | closeInfo => exact h
  | frame p =>
    simp only [step, animate]
    split <;> exact h

/-- C2: after every sequence of mouse, touch, wheel, close and frame events applied from the
initial state (`phi = π/4`), `cameraRotation.phi` lies in `[0.1, π - 0.1]`; in particular it
is never 0 and never π. -/
theorem phi_stays_in_range (M : JSMath ℝ) (hPI : M.PI = Real.pi) (sc : Scene ℝ)
    (events : List (Event ℝ)) :
    0.1 ≤ (run M sc (initialState M) events).cameraRotation.phi ∧
    (run M sc (initialState M) events).cameraRotation.phi ≤ Real.pi - 0.1 ∧
    (run M sc (initialState M) events).cameraRotation.phi ≠ 0 ∧
    (run M sc (initialState M) events).cameraRotation.phi ≠ Real.pi := by
  have h3 : (3 : ℝ) < M.PI := hPI ▸ Real.pi_gt_three
  have h0 : PhiInRange M (initialState M) := by
    unfold PhiInRange initialState
    constructor <;> norm_num <;> linarith
  have h := run_invariant M sc (PhiInRange M)
    (fun s e hs => step_phiInRange M (by linarith) sc s e hs) events _ h0
  unfold PhiInRange at h
  rw [hPI] at h
  refine ⟨h.1, h.2, ?_, ?_⟩
  · intro h'
    rw [h'] at h
    norm_num at h
  · intro h'
    rw [h'] at h
    linarith [h.2]

/-- An instance of C2: a drag far upwards stops at the upper clamp. -/
theorem phi_stays_in_range_witness :
    (⟨Real.pi, Real.sqrt, Real.sin, Real.cos⟩ : JSMath ℝ).PI = Real.pi ∧
    0.1 ≤ (run ⟨Real.pi, Real.sqrt, Real.sin, Real.cos⟩ solarScene
      (initialState ⟨Real.pi, Real.sqrt, Real.sin, Real.cos⟩)
      [.mouseDown ⟨0, 0⟩ [], .mouseMove ⟨0, -1000⟩]).cameraRotation.phi ∧
    (run ⟨Real.pi, Real.sqrt, Real.sin, Real.cos⟩ solarScene
      (initialState ⟨Real.pi, Real.sqrt, Real.sin, Real.cos⟩)
      [.mouseDown ⟨0, 0⟩ [], .mouseMove ⟨0, -1000⟩]).cameraRotation.phi ≤ Real.pi - 0.1 ∧
    (run ⟨Real.pi, Real.sqrt, Real.sin, Real.cos⟩ solarScene
      (initialState ⟨Real.pi, Real.sqrt, Real.sin, Real.cos⟩)
      [.mouseDown ⟨0, 0⟩ [], .mouseMove ⟨0, -1000⟩]).cameraRotation.phi ≠ 0 ∧
    (run ⟨Real.pi, Real.sqrt, Real.sin, Real.cos⟩ solarScene
      (initialState ⟨Real.pi, Real.sqrt, Real.sin, Real.cos⟩)
      [.mouseDown ⟨0, 0⟩ [], .mouseMove ⟨0, -1000⟩]).cameraRotation.phi ≠ Real.pi :=
  ⟨rfl, phi_stays_in_range ⟨Real.pi, Real.sqrt, Real.sin, Real.cos⟩ rfl solarScene _⟩

/-! ## Azimuth (C3) -/

/-- C3: while dragging, two successive `onMouseMove` events to `p + d1` and then to
`p + d1 + d2` leave `cameraRotation.theta` equal to what a single `onMouseMove` to
`p + d1 + d2` produces, namely `theta - 0.005 * (d1 + d2)`: no wrap and no clamp is applied
(`p` is the recorded horizontal pointer position; the vertical positions are arbitrary). -/
theorem theta_accumulates_linearly (M : JSMath α) (s : State α) (hdrag : s.isDragging = true)
    (d1 d2 y1 y2 y : α) :
    (onMouseMove M (onMouseMove M s ⟨s.previousMousePosition.x + d1, y1⟩)
        ⟨s.previousMousePosition.x + d1 + d2, y2⟩).cameraRotation.theta =
      (onMouseMove M s ⟨s.previousMousePosition.x + d1 + d2, y⟩).cameraRotation.theta ∧
    (onMouseMove M s ⟨s.previousMousePosition.x + d1 + d2, y⟩).cameraRotation.theta =
      s.cameraRotation.theta - 0.005 * (d1 + d2) := by
  simp only [onMouseMove, hdrag, rotate_isDragging, if_true, rotate_theta]
  constructor <;> ring

/-- An instance of C3: from the recorded position 10, moves by 4 and then by 6. -/
theorem theta_accumulates_linearly_witness :
    ({ initialState ⟨Real.pi, Real.sqrt, Real.sin, Real.cos⟩ with
        isDragging := true, previousMousePosition := ⟨10, 0⟩ } : State ℝ).isDragging = true ∧
    (onMouseMove ⟨Real.pi, Real.sqrt, Real.sin, Real.cos⟩ (onMouseMove ⟨Real.pi, Real.sqrt, Real.sin, Real.cos⟩
        ({ initialState ⟨Real.pi, Real.sqrt, Real.sin, Real.cos⟩ with
            isDragging := true, previousMousePosition := ⟨10, 0⟩ } : State ℝ)
        ⟨10 + 4, 1⟩) ⟨10 + 4 + 6, 2⟩).cameraRotation.theta =
      (onMouseMove ⟨Real.pi, Real.sqrt, Real.sin, Real.cos⟩
        ({ initialState ⟨Real.pi, Real.sqrt, Real.sin, Real.cos⟩ with
            isDragging := true, previousMousePosition := ⟨10, 0⟩ } : State ℝ)
        ⟨10 + 4 + 6, 3⟩).cameraRotation.theta ∧
    (onMouseMove ⟨Real.pi, Real.sqrt, Real.sin, Real.cos⟩
        ({ initialState ⟨Real.pi, Real.sqrt, Real.sin, Real.cos⟩ with
            isDragging := true, previousMousePosition := ⟨10, 0⟩ } : State ℝ)
        ⟨10 + 4 + 6, 3⟩).cameraRotation.theta =
      (initialState ⟨Real.pi, Real.sqrt, Real.sin, Real.cos⟩ : State ℝ).cameraRotation.theta - 0.005 * (4 + 6) :=
  ⟨rfl, theta_accumulates_linearly ⟨Real.pi, Real.sqrt, Real.sin, Real.cos⟩
    ({ initialState ⟨Real.pi, Real.sqrt, Real.sin, Real.cos⟩ with
        isDragging := true, previousMousePosition := ⟨10, 0⟩ } : State ℝ) rfl 4 6 1 2 3⟩

/-! ## Clock scenario (C4) -/

/-- C4, as stated, fails: after the reverse button the forward button gives
`timeScale = 1.5`, not `-1.5`. -/
theorem clock_scenario_as_stated_fails :
    ¬ ((reverseBtn (initialClock : Clock ℝ)).timeScale = -1 ∧
       (forwardBtn (reverseBtn (initialClock : Clock ℝ))).timeScale = -1.5 ∧
       (playBtn (forwardBtn (reverseBtn (initialClock : Clock ℝ)))).timeScale = 1 ∧
       (playBtn (forwardBtn (reverseBtn (initialClock : Clock ℝ)))).isPaused = false) := by
  rintro ⟨-, h, -⟩
  have habs : |(3 / 2 : ℝ)| = 3 / 2 := abs_of_pos (by norm_num)
  norm_num [forwardBtn, reverseBtn, initialClock, habs] at h

/-- C4, amended: from `timeScale = 1` (paused or not) the reverse button gives
`timeScale = -1`; the forward button applied next gives `timeScale = 1.5` (forward
direction, magnitude times 1.5); the play button applied next gives `timeScale = 1` and
`isPaused = false`. -/
theorem clock_scenario (paused : Bool) :
    (reverseBtn (⟨1, paused⟩ : Clock ℝ)).timeScale = -1 ∧
    (forwardBtn (reverseBtn (⟨1, paused⟩ : Clock ℝ))).timeScale = 1.5 ∧
    (playBtn (forwardBtn (reverseBtn (⟨1, paused⟩ : Clock ℝ)))).timeScale = 1 ∧
    (playBtn (forwardBtn (reverseBtn (⟨1, paused⟩ : Clock ℝ)))).isPaused = false := by
  have habs : |(3 / 2 : ℝ)| = 3 / 2 := abs_of_pos (by norm_num)
  refine ⟨?_, ?_, rfl, rfl⟩ <;> norm_num [forwardBtn, reverseBtn, habs]

/-! ## Clicking empty space (C5) -/

/-- C5: a pointer-down, or a touch-start with a single touch, whose intersection list is
empty leaves `focusedPlanet` unchanged and raises nothing; in particular, if Earth was
focused it is still focused afterwards. -/
theorem miss_keeps_focus (M : JSMath α) (sc : Scene α) (s : State α) (event : MouseEvent α)
    (t : Touch α) :
    (onMouseDown sc s event []).state.focusedPlanet = s.focusedPlanet ∧
    (onMouseDown sc s event []).threw = false ∧
    (onTouchStart M sc s [t] []).state.focusedPlanet = s.focusedPlanet ∧
    (onTouchStart M sc s [t] []).threw = false ∧
    (onMouseDown sc { s with focusedPlanet := some earth } event []).state.focusedPlanet =
      some earth ∧
    (onTouchStart M sc { s with focusedPlanet := some earth } [t] []).state.focusedPlanet =
      some earth := by
  simp [onMouseDown, onTouchStart]

/-! ## Drag while focused (C6) -/

/-- C6, as stated, fails: after a pointer-down that focuses Earth, a drag by 100 pixels
to the right changes `cameraRotation.theta` although a body is focused. -/
theorem drag_while_focused_changes_theta :
    (run ⟨Real.pi, Real.sqrt, Real.sin, Real.cos⟩ solarScene (initialState ⟨Real.pi, Real.sqrt, Real.sin, Real.cos⟩)
      [.mouseDown ⟨0, 0⟩ [3]] : State ℝ).focusedPlanet = some earth ∧
    (run ⟨Real.pi, Real.sqrt, Real.sin, Real.cos⟩ solarScene (initialState ⟨Real.pi, Real.sqrt, Real.sin, Real.cos⟩)
      [.mouseDown ⟨0, 0⟩ [3]] : State ℝ).isDragging = true ∧
    (run ⟨Real.pi, Real.sqrt, Real.sin, Real.cos⟩ solarScene (initialState ⟨Real.pi, Real.sqrt, Real.sin, Real.cos⟩)
      [.mouseDown ⟨0, 0⟩ [3], .mouseMove ⟨100, 0⟩] : State ℝ).cameraRotation.theta ≠
    (run ⟨Real.pi, Real.sqrt, Real.sin, Real.cos⟩ solarScene (initialState ⟨Real.pi, Real.sqrt, Real.sin, Real.cos⟩)
      [.mouseDown ⟨0, 0⟩ [3]] : State ℝ).cameraRotation.theta := by
  refine ⟨?_, ?_, ?_⟩
  · simp [run, step, onMouseDown, pick, solarScene, planetData, List.enum, List.enumFrom,
      List.find?, earth]
  · simp [run, step, onMouseDown]
  · simp [run, step, onMouseDown, onMouseMove, initialState]
    norm_num

/-- C6, amended: the drag update applies in every focus state.  While a body is focused
and a drag is in progress, an `onMouseMove` (or a single-touch `onTouchMove`) to `(x, y)`
sets `theta` to `theta - (x - previous.x) * 0.005` and `phi` to the clamp of
`phi - (y - previous.y) * 0.005` into `[0.1, π - 0.1]`, records the new pointer position
and changes nothing else (in particular not the camera position); the ideal camera
position of the next frame is computed from the updated angles. -/
theorem drag_while_focused (M : JSMath α) (s : State α) (p : Planet α) (x y : α)
    (targetPos : Vector3 α) (hfocus : s.focusedPlanet = some p) (hdrag : s.isDragging = true) :
    onMouseMove M s ⟨x, y⟩ =
      { s with
        cameraRotation :=
          { s.cameraRotation with
            theta := s.cameraRotation.theta - (x - s.previousMousePosition.x) * 0.005
            phi := Max.max 0.1 (Min.min (M.PI - 0.1)
              (s.cameraRotation.phi - (y - s.previousMousePosition.y) * 0.005)) }
        previousMousePosition := ⟨x, y⟩ } ∧
    onTouchMove M s [⟨x, y⟩] = onMouseMove M s ⟨x, y⟩ ∧
    (animate M (onMouseMove M s ⟨x, y⟩) targetPos).camera.position =
      s.camera.position.lerp
        ⟨fin targetPos.x + focusFactor s p
            * fin (M.sin (onMouseMove M s ⟨x, y⟩).cameraRotation.phi)
            * fin (M.cos (onMouseMove M s ⟨x, y⟩).cameraRotation.theta),
         fin targetPos.y + focusFactor s p
            * fin (M.cos (onMouseMove M s ⟨x, y⟩).cameraRotation.phi),
         fin targetPos.z + focusFactor s p
            * fin (M.sin (onMouseMove M s ⟨x, y⟩).cameraRotation.phi)
            * fin (M.sin (onMouseMove M s ⟨x, y⟩).cameraRotation.theta)⟩ 0.05 := by
  have hmove : onMouseMove M s ⟨x, y⟩ =
      { s with
        cameraRotation :=
          { s.cameraRotation with
            theta := s.cameraRotation.theta - (x - s.previousMousePosition.x) * 0.005
            phi := Max.max 0.1 (Min.min (M.PI - 0.1)
              (s.cameraRotation.phi - (y - s.previousMousePosition.y) * 0.005)) }
        previousMousePosition := ⟨x, y⟩ } := by
    simp [onMouseMove, hdrag, rotate, refreshCamera, hfocus]
  refine ⟨hmove, ?_, ?_⟩
  · rw [hmove]
    simp [onTouchMove, hdrag, rotate, refreshCamera, hfocus]
  · rw [hmove]
    simp [animate, hfocus, targetCamPos, focusFactor]

/-- An instance of the amended C6: Earth focused, drag from (0, 0) to (100, 0). -/
theorem drag_while_focused_witness :
    ({ initialState ⟨Real.pi, Real.sqrt, Real.sin, Real.cos⟩ with
        focusedPlanet := some earth, isDragging := true } : State ℝ).focusedPlanet
      = some earth ∧
    ({ initialState ⟨Real.pi, Real.sqrt, Real.sin, Real.cos⟩ with
        focusedPlanet := some earth, isDragging := true } : State ℝ).isDragging = true ∧
    (onMouseMove ⟨Real.pi, Real.sqrt, Real.sin, Real.cos⟩
      ({ initialState ⟨Real.pi, Real.sqrt, Real.sin, Real.cos⟩ with
          focusedPlanet := some earth, isDragging := true } : State ℝ)
      ⟨100, 0⟩).cameraRotation.theta = Real.pi / 4 - 0.5 :=
  ⟨rfl, rfl, by
    rw [(drag_while_focused ⟨Real.pi, Real.sqrt, Real.sin, Real.cos⟩
      ({ initialState ⟨Real.pi, Real.sqrt, Real.sin, Real.cos⟩ with
          focusedPlanet := some earth, isDragging := true } : State ℝ)
      earth 100 0 ⟨0, 0, 0⟩ rfl rfl).1]
    norm_num [initialState]⟩

/-! ## Wheel (C8) -/

/-- C8: for every finite radius `r`, every `deltaY = d` and every focus state, `onWheel`
sets `cameraRotation.radius` to `max(minRadius, min(3000, r + 0.5 * d))`, where `minRadius`
is 50 when nothing is focused (and 2.5 times the size of the focused body otherwise),
whatever the drag flag and the pinch marker are; for `r = 600`, `d = 100` and no focus the
result is 650. -/
theorem wheel_sets_clamped_radius (M : JSMath α) (s : State α) (r d : α)
    (hr : s.cameraRotation.radius = fin r) :
    (onWheel M s d).cameraRotation.radius =
      fin (Max.max (match s.focusedPlanet with
                    | some p => 2.5 * p.data.size
                    | none => 50)
            (Min.min 3000 (r + 0.5 * d))) ∧
    (onWheel M { s with focusedPlanet := none
                        cameraRotation := { s.cameraRotation with radius := fin 600 } }
      100).cameraRotation.radius = fin 650 := by
  constructor
  · simp only [onWheel, refreshCamera_cameraRotation, clampRadius_radius, hr,
      JSNum.fin_add_fin, JSNum.min_fin_fin, JSNum.max_fin_fin, maxRadius, minRadius]
    congr 1
    cases s.focusedPlanet <;> simp [mul_comm]
  · simp only [onWheel, refreshCamera_cameraRotation, clampRadius_radius,
      JSNum.fin_add_fin, JSNum.min_fin_fin, JSNum.max_fin_fin, maxRadius, minRadius]
    norm_num

/-- An instance of C8: Earth focused at radius 20, wheel `deltaY = -100`, during a drag. -/
theorem wheel_sets_clamped_radius_witness :
    ({ initialState ⟨Real.pi, Real.sqrt, Real.sin, Real.cos⟩ with
        focusedPlanet := some earth, isDragging := true
        cameraRotation := ⟨0, 1, fin 20⟩ } : State ℝ).cameraRotation.radius = fin 20 ∧
    (onWheel ⟨Real.pi, Real.sqrt, Real.sin, Real.cos⟩
      ({ initialState ⟨Real.pi, Real.sqrt, Real.sin, Real.cos⟩ with
          focusedPlanet := some earth, isDragging := true
          cameraRotation := ⟨0, 1, fin 20⟩ } : State ℝ) (-100)).cameraRotation.radius
      = fin 15.75 :=
  ⟨rfl, by
    rw [(wheel_sets_clamped_radius ⟨Real.pi, Real.sqrt, Real.sin, Real.cos⟩
      ({ initialState ⟨Real.pi, Real.sqrt, Real.sin, Real.cos⟩ with
          focusedPlanet := some earth, isDragging := true
          cameraRotation := ⟨0, 1, fin 20⟩ } : State ℝ) 20 (-100) rfl).1]
    norm_num [earth]⟩

/-! ## Focus distance (C9) -/

/-- C9: for a focused body of size `s` and a finite orbit radius `r`, the focus distance
of the per-frame update is `max(4 * s, 0.1 * r)`, the ideal camera position is the body's
current world position plus that distance times `(sin φ cos θ, cos φ, sin φ sin θ)`, and
`animate` moves the camera towards that position and looks at the body; for `s = 6.3` and
`r = 600` the focus distance is 60. -/
theorem focus_distance (M : JSMath α) (s : State α) (p : Planet α) (r : α)
    (targetPos : Vector3 α) (hr : s.cameraRotation.radius = fin r)
    (hfocus : s.focusedPlanet = some p) :
    focusFactor s p = fin (Max.max (4 * p.data.size) (0.1 * r)) ∧
    targetCamPos M s p targetPos =
      ⟨fin (targetPos.x + Max.max (4 * p.data.size) (0.1 * r)
              * (M.sin s.cameraRotation.phi * M.cos s.cameraRotation.theta)),
       fin (targetPos.y + Max.max (4 * p.data.size) (0.1 * r) * M.cos s.cameraRotation.phi),
       fin (targetPos.z + Max.max (4 * p.data.size) (0.1 * r)
              * (M.sin s.cameraRotation.phi * M.sin s.cameraRotation.theta))⟩ ∧
    (animate M s targetPos).camera.position =
      s.camera.position.lerp (targetCamPos M s p targetPos) 0.05 ∧
    (animate M s targetPos).camera.lookAt =
      some ⟨fin targetPos.x, fin targetPos.y, fin targetPos.z⟩ ∧
    focusFactor { s with cameraRotation := { s.cameraRotation with radius := fin 600 } }
      ⟨p.mesh, ⟨6.3⟩⟩ = fin 60 := by
  have hff : focusFactor s p = fin (Max.max (4 * p.data.size) (0.1 * r)) := by
    simp [focusFactor, hr, mul_comm]
  refine ⟨hff, ?_, ?_, ?_, ?_⟩
  · simp only [targetCamPos, hff, JSNum.fin_mul_fin, JSNum.fin_add_fin, mul_assoc]
  · simp [animate, hfocus]
  · simp [animate, hfocus]
  · simp only [focusFactor, JSNum.fin_mul_fin, JSNum.max_fin_fin]
    norm_num

/-- An instance of C9: Earth focused from the initial orbit state, at world position
`(50, 0, 0)`. -/
theorem focus_distance_witness :
    ({ initialState ⟨Real.pi, Real.sqrt, Real.sin, Real.cos⟩ with
        focusedPlanet := some earth } : State ℝ).cameraRotation.radius = fin 600 ∧
    ({ initialState ⟨Real.pi, Real.sqrt, Real.sin, Real.cos⟩ with
        focusedPlanet := some earth } : State ℝ).focusedPlanet = some earth ∧
    focusFactor ({ initialState ⟨Real.pi, Real.sqrt, Real.sin, Real.cos⟩ with
        focusedPlanet := some earth } : State ℝ) earth = fin 60 :=
  ⟨rfl, rfl, by
    rw [(focus_distance ⟨Real.pi, Real.sqrt, Real.sin, Real.cos⟩
      ({ initialState ⟨Real.pi, Real.sqrt, Real.sin, Real.cos⟩ with
          focusedPlanet := some earth } : State ℝ) earth 600 ⟨50, 0, 0⟩ rfl rfl).1]
    norm_num [earth]⟩

/-! ## Gesture flags (C10) -/

theorem step_initialPinchDistance_none (M : JSMath α) (sc : Scene α) (s : State α)
    (e : Event α) (he : e.isPinchStart = false) (h : s.initialPinchDistance = none) :
    (step M sc s e).initialPinchDistance = none := by
  cases e with
  | mouseDown ev hits => simpa [step, onMouseDown] using h
  | mouseMove ev =>
    simp only [step, onMouseMove]
    split <;> simpa using h
  | mouseUp => exact h
  | touchStart ts hits =>
    simp only [step, onTouchStart]
    split
    · simpa using h
    · simp [Event.isPinchStart] at he
    · exact h
  | touchMove ts =>
    simp only [step, onTouchMove]
    split
    · split
      · simpa using h
      · exact h
    · simp [h]
    · exact h
  | touchEnd ts =>
    simp only [step, onTouchEnd]
    split
    · rfl
    · exact h
    · exact h
  | wheel d => simpa [step, onWheel] using h
  | closeInfo => exact h
  | frame p =>
    simp only [step, animate]
    split <;> exact h

theorem run_initialPinchDistance_none (M : JSMath α) (sc : Scene α) :
    ∀ (events : List (Event α)) (s : State α), s.initialPinchDistance = none →
      (∀ e ∈ events, e.isPinchStart = false) →
      (run M sc s events).initialPinchDistance = none := by
  intro events
  induction events with
  | nil => intro s h _; exact h
  | cons e es ih =>
    intro s h hev
    exact ih _ (step_initialPinchDistance_none M sc s e (hev e (List.mem_cons_self _ _)) h)
      (fun e' he' => hev e' (List.mem_cons_of_mem _ he'))

theorem onTouchMove_one_radius (M : JSMath α) (s : State α) (t : Touch α) :
    (onTouchMove M s [t]).cameraRotation.radius = s.cameraRotation.radius := by
  simp only [onTouchMove]
  split
  · simp
  · rfl

theorem onTouchMove_two_angles (M : JSMath α) (s : State α) (t0 t1 : Touch α) :
    (onTouchMove M s [t0, t1]).cameraRotation.theta = s.cameraRotation.theta ∧
    (onTouchMove M s [t0, t1]).cameraRotation.phi = s.cameraRotation.phi := by
  simp only [onTouchMove]
  split
  · simp
  · exact ⟨rfl, rfl⟩

/-- C10, as stated, fails: after a `touchstart` with two touches and a `touchend` that
leaves one touch, the drag flag is set and the pinch marker is still set. -/
theorem drag_and_pinch_both_set :
    (run ⟨Real.pi, Real.sqrt, Real.sin, Real.cos⟩ solarScene (initialState ⟨Real.pi, Real.sqrt, Real.sin, Real.cos⟩)
      [.touchStart [⟨0, 0⟩, ⟨3, 4⟩] [], .touchEnd [⟨0, 0⟩]] : State ℝ).isDragging = true ∧
    (run ⟨Real.pi, Real.sqrt, Real.sin, Real.cos⟩ solarScene (initialState ⟨Real.pi, Real.sqrt, Real.sin, Real.cos⟩)
      [.touchStart [⟨0, 0⟩, ⟨3, 4⟩] [], .touchEnd [⟨0, 0⟩]] :
        State ℝ).initialPinchDistance ≠ none := by
  simp [run, step, onTouchStart, onTouchEnd]

/-- C10, amended: the drag flag and the pinch marker are separate flags and may both be
set.  After events from the initial state the pinch marker is set only if a `touchstart`
with exactly two touches occurred; such a `touchstart` sets the marker and clears the drag
flag; a `touchend` with no touch left clears both; and a `touchmove` acts on one gesture
only, chosen by the number of touches: with one touch it leaves the radius unchanged, with
two touches it leaves both angles unchanged. -/
theorem gesture_flags (M : JSMath α) (sc : Scene α) (events : List (Event α)) (s : State α)
    (t t0 t1 : Touch α) (hits : List Mesh)
    (hev : ∀ e ∈ events, e.isPinchStart = false) :
    (run M sc (initialState M) events).initialPinchDistance = none ∧
    ((onTouchStart M sc s [t0, t1] hits).state.isDragging = false ∧
      (onTouchStart M sc s [t0, t1] hits).state.initialPinchDistance
        = some (getTouchDistance M t0 t1)) ∧
    ((onTouchEnd s []).isDragging = false ∧ (onTouchEnd s []).initialPinchDistance = none) ∧
    (onTouchMove M s [t]).cameraRotation.radius = s.cameraRotation.radius ∧
    ((onTouchMove M s [t0, t1]).cameraRotation.theta = s.cameraRotation.theta ∧
      (onTouchMove M s [t0, t1]).cameraRotation.phi = s.cameraRotation.phi) :=
  ⟨run_initialPinchDistance_none M sc events _ rfl hev, ⟨rfl, rfl⟩, ⟨rfl, rfl⟩,
    onTouchMove_one_radius M s t, onTouchMove_two_angles M s t0 t1⟩

/-- An instance of the amended C10: a mouse drag and a one-finger touch mark no pinch. -/
theorem gesture_flags_witness :
    (∀ e ∈ ([.mouseDown ⟨0, 0⟩ [], .mouseMove ⟨5, 5⟩, .mouseUp, .touchStart [⟨1, 1⟩] []] :
        List (Event ℝ)), e.isPinchStart = false) ∧
    (run ⟨Real.pi, Real.sqrt, Real.sin, Real.cos⟩ solarScene (initialState ⟨Real.pi, Real.sqrt, Real.sin, Real.cos⟩)
      ([.mouseDown ⟨0, 0⟩ [], .mouseMove ⟨5, 5⟩, .mouseUp, .touchStart [⟨1, 1⟩] []] :
        List (Event ℝ))).initialPinchDistance = none :=
  ⟨by simp [Event.isPinchStart],
   (gesture_flags ⟨Real.pi, Real.sqrt, Real.sin, Real.cos⟩ solarScene
      ([.mouseDown ⟨0, 0⟩ [], .mouseMove ⟨5, 5⟩, .mouseUp, .touchStart [⟨1, 1⟩] []] :
        List (Event ℝ))
      (initialState ⟨Real.pi, Real.sqrt, Real.sin, Real.cos⟩) ⟨0, 0⟩ ⟨0, 0⟩ ⟨1, 0⟩ [] (by simp [Event.isPinchStart])).1⟩

/-! ## First pinch sample (C7) -/

/-- The radius after a two-touch `touchstart` and a `touchmove` with the same two touches,
when these are apart and the radius is finite: the old radius, clamped. -/
theorem pinch_first_sample (M : JSMath α) (sc : Scene α) (s : State α) (t0 t1 : Touch α)
    (hits : List Mesh) (r : α) (hd : getTouchDistance M t0 t1 ≠ 0)
    (hr : s.cameraRotation.radius = fin r) :
    (onTouchMove M (onTouchStart M sc s [t0, t1] hits).state [t0, t1]).cameraRotation.radius =
      fin (Max.max (minRadius s) (Min.min maxRadius r)) := by
  simp only [onTouchStart, onTouchMove, refreshCamera_cameraRotation, clampRadius_radius,
    toNumber, hr, JSNum.quot_of_ne _ hd, JSNum.fin_mul_fin, JSNum.min_fin_fin,
    JSNum.max_fin_fin, div_self hd, mul_one]
  rfl

/-- The distance of two coincident touches is 0, and the first pinch sample then turns the
radius into `NaN` (`0 / 0`), which no later clamp removes. -/
theorem pinch_coincident_touches_nan (M : JSMath α) (hsqrt : M.sqrt 0 = 0) (sc : Scene α)
    (s : State α) (t : Touch α) (hits : List Mesh) :
    (onTouchMove M (onTouchStart M sc s [t, t] hits).state [t, t]).cameraRotation.radius
      = nan := by
  have hd : getTouchDistance M t t = 0 := by simp [getTouchDistance, hsqrt]
  simp only [onTouchStart, onTouchMove, refreshCamera_cameraRotation, clampRadius_radius, hd,
    JSNum.quot_zero_zero]
  cases toNumber (some s.cameraRotation.radius) <;> rfl

theorem real_touch_distance_ne_zero (M : JSMath ℝ) (hsqrt : M.sqrt = Real.sqrt)
    (t0 t1 : Touch ℝ) (h : t0 ≠ t1) : getTouchDistance M t0 t1 ≠ 0 := by
  intro h0
  apply h
  simp only [getTouchDistance, hsqrt] at h0
  have hsq : (t0.clientX - t1.clientX) * (t0.clientX - t1.clientX)
      + (t0.clientY - t1.clientY) * (t0.clientY - t1.clientY) = 0 := by
    have hnn : 0 ≤ (t0.clientX - t1.clientX) * (t0.clientX - t1.clientX)
        + (t0.clientY - t1.clientY) * (t0.clientY - t1.clientY) :=
      add_nonneg (mul_self_nonneg _) (mul_self_nonneg _)
    exact (Real.sqrt_eq_zero hnn).1 h0
  have hx : t0.clientX - t1.clientX = 0 := by
    nlinarith [mul_self_nonneg (t0.clientY - t1.clientY),
      mul_self_nonneg (t0.clientX - t1.clientX)]
  have hy : t0.clientY - t1.clientY = 0 := by
    nlinarith [mul_self_nonneg (t0.clientY - t1.clientY),
      mul_self_nonneg (t0.clientX - t1.clientX)]
  cases t0; cases t1
  simp only [Touch.mk.injEq]
  simp only at hx hy
  exact ⟨by linarith, by linarith⟩

/-- The state after zooming in to the free minimum and then clicking the sun. -/
theorem zoom_in_then_pick_sun :
    (run ⟨Real.pi, Real.sqrt, Real.sin, Real.cos⟩ solarScene (initialState ⟨Real.pi, Real.sqrt, Real.sin, Real.cos⟩)
      [.wheel (-1100), .mouseDown ⟨0, 0⟩ [0]] : State ℝ).cameraRotation.radius = fin 50 ∧
    (run ⟨Real.pi, Real.sqrt, Real.sin, Real.cos⟩ solarScene (initialState ⟨Real.pi, Real.sqrt, Real.sin, Real.cos⟩)
      [.wheel (-1100), .mouseDown ⟨0, 0⟩ [0]] : State ℝ).focusedPlanet
      = some ⟨0, sunData⟩ := by
  constructor
  · simp only [run, List.foldl, step, onMouseDown, pick_cameraRotation, onWheel,
      refreshCamera_cameraRotation, clampRadius_radius, initialState, JSNum.fin_add_fin,
      JSNum.min_fin_fin, JSNum.max_fin_fin, maxRadius, minRadius]
    norm_num
  · simp [run, step, onMouseDown, pick, solarScene]

/-- C7, as stated, fails: zoom in to radius 50, click the sun (minimum radius 75), then
start a pinch; the first pinch sample with unchanged touches moves the radius from 50
to 75. -/
theorem pinch_start_jumps_after_focus_change :
    (run ⟨Real.pi, Real.sqrt, Real.sin, Real.cos⟩ solarScene (initialState ⟨Real.pi, Real.sqrt, Real.sin, Real.cos⟩)
      [.wheel (-1100), .mouseDown ⟨0, 0⟩ [0]] : State ℝ).cameraRotation.radius = fin 50 ∧
    (onTouchMove ⟨Real.pi, Real.sqrt, Real.sin, Real.cos⟩
      (onTouchStart ⟨Real.pi, Real.sqrt, Real.sin, Real.cos⟩ solarScene
        (run ⟨Real.pi, Real.sqrt, Real.sin, Real.cos⟩ solarScene (initialState ⟨Real.pi, Real.sqrt, Real.sin, Real.cos⟩) [.wheel (-1100), .mouseDown ⟨0, 0⟩ [0]])
        [⟨0, 0⟩, ⟨3, 4⟩] []).state
      [⟨0, 0⟩, ⟨3, 4⟩] : State ℝ).cameraRotation.radius = fin 75 := by
  have hs := zoom_in_then_pick_sun
  refine ⟨hs.1, ?_⟩
  rw [pinch_first_sample ⟨Real.pi, Real.sqrt, Real.sin, Real.cos⟩ solarScene _ ⟨0, 0⟩ ⟨3, 4⟩ [] 50
    (real_touch_distance_ne_zero _ rfl _ _ (by simp)) hs.1]
  simp only [minRadius, hs.2, sunData, maxRadius]
  norm_num

/-- C7, amended: when the radius is a finite number inside `[minRadius, 3000]` for the
current focus (with or without a drag in progress, with or without a focused body) and the
two touch positions are distinct, `onTouchStart` with these two touches followed by
`onTouchMove` with the same two touches leaves `cameraRotation.radius` equal to its value
before the pinch started. -/
theorem pinch_start_no_jump (M : JSMath ℝ) (hsqrt : M.sqrt = Real.sqrt) (sc : Scene ℝ)
    (s : State ℝ) (t0 t1 : Touch ℝ) (hits : List Mesh) (r : ℝ) (hne : t0 ≠ t1)
    (hr : s.cameraRotation.radius = fin r) (hlo : minRadius s ≤ r) (hhi : r ≤ 3000) :
    (onTouchMove M (onTouchStart M sc s [t0, t1] hits).state [t0, t1]).cameraRotation.radius =
      s.cameraRotation.radius := by
  rw [pinch_first_sample M sc s t0 t1 hits r (real_touch_distance_ne_zero M hsqrt t0 t1 hne) hr,
    hr, maxRadius, min_eq_right hhi, max_eq_right hlo]

/-- An instance of the amended C7: a pinch started from the initial state during a drag. -/
theorem pinch_start_no_jump_witness :
    (⟨Real.pi, Real.sqrt, Real.sin, Real.cos⟩ : JSMath ℝ).sqrt = Real.sqrt ∧
    (⟨0, 0⟩ : Touch ℝ) ≠ ⟨3, 4⟩ ∧
    ({ initialState ⟨Real.pi, Real.sqrt, Real.sin, Real.cos⟩ with isDragging := true } : State ℝ).cameraRotation.radius = fin 600 ∧
    minRadius ({ initialState ⟨Real.pi, Real.sqrt, Real.sin, Real.cos⟩ with isDragging := true } : State ℝ) ≤ 600 ∧
    (600 : ℝ) ≤ 3000 ∧
    (onTouchMove ⟨Real.pi, Real.sqrt, Real.sin, Real.cos⟩
      (onTouchStart ⟨Real.pi, Real.sqrt, Real.sin, Real.cos⟩ solarScene
        ({ initialState ⟨Real.pi, Real.sqrt, Real.sin, Real.cos⟩ with isDragging := true } : State ℝ)
        [⟨0, 0⟩, ⟨3, 4⟩] []).state [⟨0, 0⟩, ⟨3, 4⟩]).cameraRotation.radius = fin 600 :=
  ⟨rfl, by simp, rfl, by norm_num [minRadius, initialState], by norm_num,
   pinch_start_no_jump ⟨Real.pi, Real.sqrt, Real.sin, Real.cos⟩ rfl solarScene
     ({ initialState ⟨Real.pi, Real.sqrt, Real.sin, Real.cos⟩ with isDragging := true } : State ℝ)
     ⟨0, 0⟩ ⟨3, 4⟩ [] 600 (by simp) rfl (by norm_num [minRadius, initialState])
     (by norm_num)⟩

/-! ## Radius bounds (C1) -/

theorem clampRadius_within (s : State α) (x : α) (hr : s.cameraRotation.radius = fin x)
    (hmax : minRadius s ≤ 3000) :
    JSNum.Within (minRadius s) 3000 (clampRadius s).cameraRotation.radius := by
  rw [clampRadius_radius, hr, JSNum.min_fin_fin, JSNum.max_fin_fin, JSNum.within_fin, maxRadius]
  exact ⟨le_max_left _ _, max_le hmax (min_le_left _ _)⟩

theorem within_mono {lo lo' hi : α} {r : JSNum α} (h : lo ≤ lo') (hr : JSNum.Within lo' hi r) :
    JSNum.Within lo hi r := by
  cases r with
  | fin x => exact ⟨le_trans h hr.1, hr.2⟩
  | posInf => exact hr
  | negInf => exact hr
  | nan => exact hr

theorem pick_minRadius (sc : Scene α) (lo : α) (hlo : lo ≤ 50) (hsc : sc.SizesWithin lo)
    (s : State α) (hits : List Mesh) (h : lo ≤ minRadius s ∧ minRadius s ≤ 3000) :
    lo ≤ minRadius (pick sc s hits).state ∧ minRadius (pick sc s hits).state ≤ 3000 := by
  unfold pick
  split
  · exact h
  · split
    · simp only [minRadius, sunData]
      constructor
      · linarith
      · norm_num
    · split
      · rename_i p hp
        exact hsc p (List.mem_of_find?_eq_some hp)
      · simp only [minRadius]
        constructor
        · exact hlo
        · norm_num

theorem minRadius_congr {s s' : State α} (h : s'.focusedPlanet = s.focusedPlanet) :
    minRadius s' = minRadius s := by
  simp [minRadius, h]

theorem zoom_radiusInv (M : JSMath α) (lo : α) (s : State α) (x : α)
    (hr : s.cameraRotation.radius = fin x) (hmin : lo ≤ minRadius s ∧ minRadius s ≤ 3000)
    (hinit : ∀ r0, s.initialRadius = some r0 → ∃ x, r0 = fin x) :
    RadiusInv lo (refreshCamera M (clampRadius s)) ∧
    JSNum.Within (minRadius (refreshCamera M (clampRadius s))) 3000
      (refreshCamera M (clampRadius s)).cameraRotation.radius := by
  have hw := clampRadius_within s x hr hmin.2
  have hm : minRadius (refreshCamera M (clampRadius s)) = minRadius s := by
    simp [minRadius]
  refine ⟨⟨?_, ?_, ?_⟩, ?_⟩
  · rw [refreshCamera_cameraRotation]
    exact within_mono hmin.1 hw
  · rw [hm]
    exact hmin
  · simpa [clampRadius] using hinit
  · rw [hm, refreshCamera_cameraRotation]
    exact hw

theorem step_radiusInv (M : JSMath α) (sc : Scene α) (lo : α) (hlo : lo ≤ 50)
    (hsc : sc.SizesWithin lo) (s : State α) (e : Event α) (he : e.TouchesApart M)
    (h : RadiusInv lo s) :
    RadiusInv lo (step M sc s e) ∧
    (e.writesRadius s = true →
      JSNum.Within (minRadius (step M sc s e)) 3000 (step M sc s e).cameraRotation.radius) ∧
    (e.writesRadius s = false →
      (step M sc s e).cameraRotation.radius = s.cameraRotation.radius) := by
  obtain ⟨hrad, hmin, hinit⟩ := h
  obtain ⟨x, hx, hxb⟩ := (JSNum.within_iff _ _ _).1 hrad
  cases e with
  | mouseDown ev hits =>
    refine ⟨⟨?_, ?_, ?_⟩, by simp [Event.writesRadius], by simp [step, onMouseDown]⟩
    · simpa [step, onMouseDown] using hrad
    · exact pick_minRadius sc lo hlo hsc _ hits hmin
    · simpa [step, onMouseDown] using hinit
  | mouseMove ev =>
    refine ⟨⟨?_, ?_, ?_⟩, by simp [Event.writesRadius], ?_⟩
    · simp only [step, onMouseMove]; split <;> simpa using hrad
    · rw [minRadius_congr (s := s)]
      · exact hmin
      · simp only [step, onMouseMove]; split <;> simp
    · simp only [step, onMouseMove]; split <;> simpa [rotate] using hinit
    · intro _; simp only [step, onMouseMove]; split <;> simp
  | mouseUp =>
    exact ⟨⟨hrad, hmin, hinit⟩, by simp [Event.writesRadius], fun _ => rfl⟩
  | touchStart ts hits =>
    refine ⟨⟨?_, ?_, ?_⟩, by simp [Event.writesRadius], ?_⟩
    · simp only [step, onTouchStart]; split
      · simpa using hrad
      · exact hrad
      · exact hrad
    · simp only [step, onTouchStart]; split
      · exact pick_minRadius sc lo hlo hsc _ hits hmin
      · exact hmin
      · exact hmin
    · simp only [step, onTouchStart]; split
      · simpa using hinit
      · intro r0 h0
        exact ⟨x, by simpa [hx] using h0.symm⟩
      · exact hinit
    · intro _; simp only [step, onTouchStart]; split
      · simp
      · rfl
      · rfl
  | touchMove ts =>
    simp only [step, onTouchMove]
    split
    · refine ⟨⟨?_, ?_, ?_⟩, by simp [Event.writesRadius], ?_⟩
      · split
        · simpa using hrad
        · exact hrad
      · split
        · rw [minRadius_congr (s := s) (by simp)]
          exact hmin
        · exact hmin
      · split
        · simpa [rotate] using hinit
        · exact hinit
      · intro _; split
        · simp
        · rfl
    · rename_i t0 t1
      have hd : getTouchDistance M t0 t1 ≠ 0 := he
      split
      · rename_i d0 hd0
        obtain ⟨y, hy⟩ : ∃ y, toNumber s.initialRadius = fin y := by
          cases hi : s.initialRadius with
          | none => exact ⟨0, rfl⟩
          | some r0 =>
            obtain ⟨y, hy⟩ := hinit r0 hi
            exact ⟨y, by simp [toNumber, hy]⟩
        have hz := zoom_radiusInv M lo
          { s with cameraRotation :=
              { s.cameraRotation with
                radius := toNumber s.initialRadius * JSNum.quot d0 (getTouchDistance M t0 t1) } }
          (y * (d0 / getTouchDistance M t0 t1))
          (by simp [hy, JSNum.quot_of_ne _ hd]) hmin hinit
        exact ⟨hz.1, fun _ => hz.2, by simp [Event.writesRadius, hd0]⟩
      · rename_i hnone
        exact ⟨⟨hrad, hmin, hinit⟩, by simp [Event.writesRadius, hnone], fun _ => rfl⟩
    · refine ⟨⟨hrad, hmin, hinit⟩, ?_, fun _ => rfl⟩
      rename_i hne1 hne2
      cases ts with
      | nil => simp [Event.writesRadius]
      | cons a as =>
        cases as with
        | nil => simp [Event.writesRadius]
        | cons b bs =>
          cases bs with
          | nil => exact absurd rfl (hne2 a b)
          | cons c cs => simp [Event.writesRadius]
  | touchEnd ts =>
    refine ⟨?_, by simp [Event.writesRadius], ?_⟩
    · simp only [step, onTouchEnd]; split <;> exact ⟨hrad, hmin, hinit⟩
    · intro _; simp only [step, onTouchEnd]; split <;> rfl
  | wheel d =>
    have hz := zoom_radiusInv M lo
      { s with cameraRotation :=
          { s.cameraRotation with radius := s.cameraRotation.radius + fin (d * 0.5) } }
      (x + d * 0.5) (by simp [hx]) hmin hinit
    exact ⟨hz.1, fun _ => hz.2, by simp [Event.writesRadius]⟩
  | closeInfo =>
    refine ⟨⟨hrad, ?_, hinit⟩, by simp [Event.writesRadius], fun _ => rfl⟩
    simp only [step, closeInfo, minRadius]
    constructor
    · exact hlo
    · norm_num
  | frame p =>
    refine ⟨?_, by simp [Event.writesRadius], ?_⟩
    · simp only [step, animate]; split <;> exact ⟨hrad, hmin, hinit⟩
    · intro _; simp only [step, animate]; split <;> rfl

theorem run_radiusInv (M : JSMath α) (sc : Scene α) (lo : α) (hlo : lo ≤ 50)
    (hsc : sc.SizesWithin lo) :
    ∀ (events : List (Event α)) (s : State α), (∀ e ∈ events, e.TouchesApart M) →
      RadiusInv lo s → RadiusInv lo (run M sc s events) := by
  intro events
  induction events with
  | nil => intro s _ h; exact h
  | cons e es ih =>
    intro s hev h
    exact ih _ (fun e' he' => hev e' (List.mem_cons_of_mem _ he'))
      (step_radiusInv M sc lo hlo hsc s e (hev e (List.mem_cons_self _ _)) h).1

/-- C1, as stated, fails: after zooming in to radius 50 with nothing focused, a click on
the sun focuses it (minimum radius 2.5 * 30 = 75) and leaves the radius at 50, outside
`[minRadius, 3000]`. -/
theorem radius_below_minRadius_after_pick :
    ¬ JSNum.Within
      (minRadius (run ⟨Real.pi, Real.sqrt, Real.sin, Real.cos⟩ solarScene (initialState ⟨Real.pi, Real.sqrt, Real.sin, Real.cos⟩)
        [.wheel (-1100), .mouseDown ⟨0, 0⟩ [0]] : State ℝ)) 3000
      (run ⟨Real.pi, Real.sqrt, Real.sin, Real.cos⟩ solarScene (initialState ⟨Real.pi, Real.sqrt, Real.sin, Real.cos⟩)
        [.wheel (-1100), .mouseDown ⟨0, 0⟩ [0]] : State ℝ).cameraRotation.radius := by
  have hs := zoom_in_then_pick_sun
  rw [hs.1, JSNum.within_fin]
  simp only [minRadius, hs.2, sunData]
  norm_num

/-- C1, amended: let every body have `2.5 * size` in `[lo, 3000]` with `lo ≤ 50`, and let
the two touches of every two-touch `touchmove` be apart.  Then after each event of a
sequence applied from the initial state, `cameraRotation.radius` is a finite number in
`[lo, 3000]`; after each event that rewrites the radius (a wheel event, or a two-touch
`touchmove` while a pinch is marked) it lies in `[minRadius, 3000]`, where `minRadius` is
50 while no body is focused and 2.5 times the focused body's size otherwise; every other
event (a pick, clearing the focus, a drag) leaves the radius as it is, so that it may lie
below the minimum of a newly focused body until the next zoom. -/
theorem radius_bounds (M : JSMath α) (sc : Scene α) (lo : α) (hlo : lo ≤ 50)
    (hsc : sc.SizesWithin lo) (events : List (Event α)) (e : Event α)
    (hev : ∀ e' ∈ events, e'.TouchesApart M) (he : e.TouchesApart M) :
    JSNum.Within lo 3000
      (step M sc (run M sc (initialState M) events) e).cameraRotation.radius ∧
    (e.writesRadius (run M sc (initialState M) events) = true →
      JSNum.Within (minRadius (step M sc (run M sc (initialState M) events) e)) 3000
        (step M sc (run M sc (initialState M) events) e).cameraRotation.radius) ∧
    (e.writesRadius (run M sc (initialState M) events) = false →
      (step M sc (run M sc (initialState M) events) e).cameraRotation.radius =
        (run M sc (initialState M) events).cameraRotation.radius) := by
  have h0 : RadiusInv lo (initialState M) := by
    refine ⟨?_, ?_, ?_⟩
    · simp only [initialState, JSNum.within_fin]
      constructor
      · linarith
      · norm_num
    · simp only [initialState, minRadius]
      constructor
      · exact hlo
      · norm_num
    · intro r0 h; simp [initialState] at h
  have h := step_radiusInv M sc lo hlo hsc _ e he
    (run_radiusInv M sc lo hlo hsc events _ hev h0)
  exact ⟨h.1.1, h.2⟩

theorem solarScene_sizesWithin : (solarScene : Scene ℝ).SizesWithin 6 := by
  intro p hp
  simp only [solarScene, planetData, List.enum, List.enumFrom, List.map, List.mem_cons,
    List.mem_singleton, List.not_mem_nil, or_false] at hp
  rcases hp with h | h | h | h | h | h | h | h <;> subst h <;> constructor <;> norm_num

/-- An instance of the amended C1: a wheel event at the initial state. -/
theorem radius_bounds_witness :
    (6 : ℝ) ≤ 50 ∧ (solarScene : Scene ℝ).SizesWithin 6 ∧
    (∀ e' ∈ ([.mouseDown ⟨0, 0⟩ [3]] : List (Event ℝ)), e'.TouchesApart ⟨Real.pi, Real.sqrt, Real.sin, Real.cos⟩) ∧
    (Event.wheel (-2000) : Event ℝ).TouchesApart ⟨Real.pi, Real.sqrt, Real.sin, Real.cos⟩ ∧
    JSNum.Within 6 3000
      (step ⟨Real.pi, Real.sqrt, Real.sin, Real.cos⟩ solarScene (run ⟨Real.pi, Real.sqrt, Real.sin, Real.cos⟩ solarScene (initialState ⟨Real.pi, Real.sqrt, Real.sin, Real.cos⟩) [.mouseDown ⟨0, 0⟩ [3]])
        (.wheel (-2000))).cameraRotation.radius :=
  ⟨by norm_num, solarScene_sizesWithin, by simp [Event.TouchesApart], trivial,
   (radius_bounds ⟨Real.pi, Real.sqrt, Real.sin, Real.cos⟩ solarScene 6 (by norm_num) solarScene_sizesWithin
      [.mouseDown ⟨0, 0⟩ [3]] (.wheel (-2000)) (by simp [Event.TouchesApart]) trivial).1⟩

/-! ## Picking an object that is not registered (C11) -/

/-- When the nearest intersected object is neither the sun nor the mesh of an entry of
`planets`, the picking block stores `undefined` in `focusedPlanet` and raises. -/
theorem pick_unregistered (sc : Scene α) (s : State α) (m : Mesh) (rest : List Mesh)
    (hsun : sc.sun ≠ some m) (hplanets : ∀ p ∈ sc.planets, p.mesh ≠ m) :
    (pick sc s (m :: rest)).threw = true ∧ (pick sc s (m :: rest)).state.focusedPlanet = none := by
  have hfind : sc.planets.find? (fun p => p.mesh == m) = none := by
    rw [List.find?_eq_none]
    intro p hp
    simpa using hplanets p hp
  simp [pick, hsun, hfind]

/-- C11 at the failing input: with Earth focused, a pointer-down (or a single-touch
`touchstart`) whose nearest intersected object is the ring of Saturn raises a `TypeError`
and leaves `focusedPlanet` falsy instead of leaving Earth focused. -/
theorem pick_ring_raises_and_drops_focus :
    (onMouseDown solarScene
      ({ initialState ⟨Real.pi, Real.sqrt, Real.sin, Real.cos⟩ with focusedPlanet := some earth } : State ℝ)
      ⟨0, 0⟩ [saturnRing]).threw = true ∧
    (onMouseDown solarScene
      ({ initialState ⟨Real.pi, Real.sqrt, Real.sin, Real.cos⟩ with focusedPlanet := some earth } : State ℝ)
      ⟨0, 0⟩ [saturnRing]).state.focusedPlanet = none ∧
    (onTouchStart ⟨Real.pi, Real.sqrt, Real.sin, Real.cos⟩ solarScene
      ({ initialState ⟨Real.pi, Real.sqrt, Real.sin, Real.cos⟩ with focusedPlanet := some earth } : State ℝ)
      [⟨0, 0⟩] [saturnRing]).threw = true ∧
    (onTouchStart ⟨Real.pi, Real.sqrt, Real.sin, Real.cos⟩ solarScene
      ({ initialState ⟨Real.pi, Real.sqrt, Real.sin, Real.cos⟩ with focusedPlanet := some earth } : State ℝ)
      [⟨0, 0⟩] [saturnRing]).state.focusedPlanet = none := by
  have hsun : (solarScene : Scene ℝ).sun ≠ some saturnRing := by
    simp [solarScene, saturnRing]
  have hplanets : ∀ p ∈ (solarScene : Scene ℝ).planets, p.mesh ≠ saturnRing := by
    intro p hp
    simp only [solarScene, planetData, List.enum, List.enumFrom, List.map, List.mem_cons,
      List.mem_singleton, List.not_mem_nil, or_false] at hp
    rcases hp with h | h | h | h | h | h | h | h <;> subst h <;> simp [saturnRing]
  refine ⟨?_, ?_, ?_, ?_⟩
  · exact (pick_unregistered solarScene _ saturnRing [] hsun hplanets).1
  · exact (pick_unregistered solarScene _ saturnRing [] hsun hplanets).2
  · exact (pick_unregistered solarScene _ saturnRing [] hsun hplanets).1
  · exact (pick_unregistered solarScene _ saturnRing [] hsun hplanets).2

/-! ## Cap of the time scale (C12) -/

theorem forwardBtn_timeScale (c : Clock α) :
    (forwardBtn c).timeScale = Min.min (1.5 * |c.timeScale|) 50 := by
  have h0 : (0 : α) ≤ |c.timeScale| * 1.5 := mul_nonneg (abs_nonneg _) (by norm_num)
  simp only [forwardBtn, abs_of_nonneg h0, gt_iff_lt, mul_comm (1.5 : α)]
  split
  · rename_i h; exact (min_eq_right (le_of_lt h)).symm
  · rename_i h; exact (min_eq_left (not_lt.1 h)).symm

theorem clockStep_capped (c : Clock α) (e : ClockEvent α) (he : e.IsPreset)
    (h : |c.timeScale| ≤ 50 ∧ c.timeScale ≠ 0) :
    |(clockStep c e).timeScale| ≤ 50 ∧ (clockStep c e).timeScale ≠ 0 := by
  have hpos : 0 < |c.timeScale| := abs_pos.2 h.2
  cases e with
  | pause => exact h
  | reverse =>
    simp only [clockStep, reverseBtn, abs_neg, abs_abs]
    exact ⟨h.1, neg_ne_zero.2 (ne_of_gt hpos)⟩
  | forward =>
    simp only [clockStep, forwardBtn_timeScale]
    have hm : (0 : α) < Min.min (1.5 * |c.timeScale|) 50 :=
      lt_min (mul_pos (by norm_num) hpos) (by norm_num)
    exact ⟨by rw [abs_of_pos hm]; exact min_le_right _ _, ne_of_gt hm⟩
  | play =>
    simp only [clockStep, playBtn, abs_one]
    exact ⟨by norm_num, one_ne_zero⟩
  | speed v =>
    have hv : v ∈ (speedPresets : List α) := he
    have hvb : 0 < v ∧ v ≤ 50 := by
      simp only [speedPresets, List.mem_cons, List.mem_singleton, List.not_mem_nil,
        or_false] at hv
      rcases hv with h | h | h | h | h | h | h <;> subst h <;> constructor <;> norm_num
    simp only [clockStep, speedBtn]
    split
    · simp only [mul_neg, mul_one, abs_neg, abs_of_pos hvb.1]
      exact ⟨hvb.2, neg_ne_zero.2 (ne_of_gt hvb.1)⟩
    · simp only [mul_one, abs_of_pos hvb.1]
      exact ⟨hvb.2, ne_of_gt hvb.1⟩

theorem clockRun_capped :
    ∀ (events : List (ClockEvent α)) (c : Clock α), (∀ e ∈ events, e.IsPreset) →
      |c.timeScale| ≤ 50 ∧ c.timeScale ≠ 0 →
      |(clockRun c events).timeScale| ≤ 50 ∧ (clockRun c events).timeScale ≠ 0 := by
  intro events
  induction events with
  | nil => intro c _ h; exact h
  | cons e es ih =>
    intro c hev h
    exact ih _ (fun e' he' => hev e' (List.mem_cons_of_mem _ he'))
      (clockStep_capped c e (hev e (List.mem_cons_self _ _)) h)

/-- C12: for every `timeScale = t` the forward button yields the magnitude
`min(1.5 * |t|, 50)`, and in every clock state reached from `timeScale = 1` by a sequence
of pause, reverse, forward, play and speed-preset clicks (presets 0.5, 1, 2, 5, 10, 25, 50),
`|timeScale| ≤ 50` and `timeScale ≠ 0`. -/
theorem timeScale_capped (t : α) (paused : Bool) (events : List (ClockEvent α))
    (hev : ∀ e ∈ events, e.IsPreset) :
    |(forwardBtn ⟨t, paused⟩).timeScale| = Min.min (1.5 * |t|) 50 ∧
    |(clockRun ⟨1, paused⟩ events).timeScale| ≤ 50 ∧
    (clockRun ⟨1, paused⟩ events).timeScale ≠ 0 := by
  refine ⟨?_, clockRun_capped events ⟨1, paused⟩ hev ⟨?_, one_ne_zero⟩⟩
  · rw [forwardBtn_timeScale]
    exact abs_of_nonneg (le_min (mul_nonneg (by norm_num) (abs_nonneg _)) (by norm_num))
  · simp only [abs_one]
    norm_num

/-- An instance of C12: preset 25, reverse, then forward twice reaches the cap. -/
theorem timeScale_capped_witness :
    (∀ e ∈ ([.speed 25, .reverse, .forward, .forward] : List (ClockEvent ℝ)), e.IsPreset) ∧
    |(forwardBtn (⟨-40, false⟩ : Clock ℝ)).timeScale| = Min.min (1.5 * |(-40 : ℝ)|) 50 ∧
    |(clockRun (⟨1, false⟩ : Clock ℝ) [.speed 25, .reverse, .forward, .forward]).timeScale|
      ≤ 50 ∧
    (clockRun (⟨1, false⟩ : Clock ℝ) [.speed 25, .reverse, .forward, .forward]).timeScale
      ≠ 0 :=
  ⟨by simp [ClockEvent.IsPreset, speedPresets],
   timeScale_capped (-40) false [.speed 25, .reverse, .forward, .forward]
     (by simp [ClockEvent.IsPreset, speedPresets])⟩

/-! ## From two touches to one (C13) -/

/-- C13: in every state reached from the initial state, after `onTouchEnd` with exactly one
remaining touch at `p` the drag flag is set and the reference position is `p`; a following
single-touch `onTouchMove` at `p` leaves `theta` and `phi` unchanged, and a following move
to `q` changes `theta` by exactly `-0.005 * (q.x - p.x)`, whatever position was recorded
before the finger was lifted. -/
theorem touch_end_rebaselines (M : JSMath ℝ) (hPI : M.PI = Real.pi) (sc : Scene ℝ)
    (events : List (Event ℝ)) (p q : Touch ℝ) (stale : Point ℝ) :
    (onTouchEnd (run M sc (initialState M) events) [p]).isDragging = true ∧
    (onTouchEnd (run M sc (initialState M) events) [p]).previousMousePosition
      = ⟨p.clientX, p.clientY⟩ ∧
    (onTouchMove M (onTouchEnd (run M sc (initialState M) events) [p]) [p]).cameraRotation.theta
      = (run M sc (initialState M) events).cameraRotation.theta ∧
    (onTouchMove M (onTouchEnd (run M sc (initialState M) events) [p]) [p]).cameraRotation.phi
      = (run M sc (initialState M) events).cameraRotation.phi ∧
    (onTouchMove M (onTouchEnd (run M sc (initialState M) events) [p]) [q]).cameraRotation.theta
      = (run M sc (initialState M) events).cameraRotation.theta
          - 0.005 * (q.clientX - p.clientX) ∧
    (onTouchMove M
        (onTouchEnd { run M sc (initialState M) events with previousMousePosition := stale } [p])
        [q]).cameraRotation.theta
      = (onTouchMove M (onTouchEnd (run M sc (initialState M) events) [p])
          [q]).cameraRotation.theta := by
  have h3 : (3 : ℝ) < M.PI := hPI ▸ Real.pi_gt_three
  have h0 : PhiInRange M (initialState M) := by
    unfold PhiInRange initialState
    constructor <;> norm_num <;> linarith
  have hphi := run_invariant M sc (PhiInRange M)
    (fun s e hs => step_phiInRange M (by linarith) sc s e hs) events _ h0
  unfold PhiInRange at hphi
  refine ⟨rfl, rfl, ?_, ?_, ?_, ?_⟩
  · simp [onTouchEnd, onTouchMove]
  · simp only [onTouchEnd, onTouchMove, if_true, rotate_phi, sub_self, zero_mul, sub_zero]
    rw [min_eq_right hphi.2, max_eq_right hphi.1]
  · simp only [onTouchEnd, onTouchMove, if_true, rotate_theta]
    ring
  · simp only [onTouchEnd, onTouchMove, if_true, rotate_theta]

/-- An instance of C13: a pinch is started during a drag, then one finger is lifted. -/
theorem touch_end_rebaselines_witness :
    (⟨Real.pi, Real.sqrt, Real.sin, Real.cos⟩ : JSMath ℝ).PI = Real.pi ∧
    (onTouchMove ⟨Real.pi, Real.sqrt, Real.sin, Real.cos⟩
      (onTouchEnd (run ⟨Real.pi, Real.sqrt, Real.sin, Real.cos⟩ solarScene (initialState ⟨Real.pi, Real.sqrt, Real.sin, Real.cos⟩)
        [.touchStart [⟨0, 0⟩] [], .touchMove [⟨40, 10⟩], .touchStart [⟨40, 10⟩, ⟨90, 70⟩] []])
        [⟨90, 70⟩])
      [⟨100, 70⟩]).cameraRotation.theta
      = (run ⟨Real.pi, Real.sqrt, Real.sin, Real.cos⟩ solarScene (initialState ⟨Real.pi, Real.sqrt, Real.sin, Real.cos⟩)
          [.touchStart [⟨0, 0⟩] [], .touchMove [⟨40, 10⟩],
            .touchStart [⟨40, 10⟩, ⟨90, 70⟩] []]).cameraRotation.theta
          - 0.005 * (100 - 90) :=
  ⟨rfl, (touch_end_rebaselines ⟨Real.pi, Real.sqrt, Real.sin, Real.cos⟩ rfl solarScene
      [.touchStart [⟨0, 0⟩] [], .touchMove [⟨40, 10⟩], .touchStart [⟨40, 10⟩, ⟨90, 70⟩] []]
      ⟨90, 70⟩ ⟨100, 70⟩ ⟨0, 0⟩).2.2.2.2.1⟩

/-! ## The free camera (C14) -/

/-- C14: while no body is focused, for all angles and every finite radius `r ≥ 0`,
`updateCameraPosition` sets the camera position to
`r * (sin φ cos θ, cos φ, sin φ sin θ)` and looks at the origin; the Euclidean distance of
that position from the origin is exactly `r`.  While a body is focused
`updateCameraPosition` changes nothing. -/
theorem free_camera_on_sphere (M : JSMath ℝ) (hsin : M.sin = Real.sin) (hcos : M.cos = Real.cos)
    (s : State ℝ) (r : ℝ) (p : Planet ℝ) (hfree : s.focusedPlanet = none)
    (hr : s.cameraRotation.radius = fin r) (hr0 : 0 ≤ r) :
    (updateCameraPosition M s).camera.position =
      ⟨fin (r * Real.sin s.cameraRotation.phi * Real.cos s.cameraRotation.theta),
       fin (r * Real.cos s.cameraRotation.phi),
       fin (r * Real.sin s.cameraRotation.phi * Real.sin s.cameraRotation.theta)⟩ ∧
    (updateCameraPosition M s).camera.lookAt = some ⟨fin 0, fin 0, fin 0⟩ ∧
    Real.sqrt ((r * Real.sin s.cameraRotation.phi * Real.cos s.cameraRotation.theta) ^ 2
        + (r * Real.cos s.cameraRotation.phi) ^ 2
        + (r * Real.sin s.cameraRotation.phi * Real.sin s.cameraRotation.theta) ^ 2) = r ∧
    updateCameraPosition M { s with focusedPlanet := some p }
      = { s with focusedPlanet := some p } := by
  refine ⟨?_, ?_, ?_, rfl⟩
  · simp [updateCameraPosition, hfree, hr, hsin, hcos]
  · simp [updateCameraPosition, hfree]
  · have hsq : (r * Real.sin s.cameraRotation.phi * Real.cos s.cameraRotation.theta) ^ 2
        + (r * Real.cos s.cameraRotation.phi) ^ 2
        + (r * Real.sin s.cameraRotation.phi * Real.sin s.cameraRotation.theta) ^ 2 = r ^ 2 := by
      have h1 := Real.sin_sq_add_cos_sq s.cameraRotation.phi
      have h2 := Real.sin_sq_add_cos_sq s.cameraRotation.theta
      have e : (r * Real.sin s.cameraRotation.phi * Real.cos s.cameraRotation.theta) ^ 2
          + (r * Real.cos s.cameraRotation.phi) ^ 2
          + (r * Real.sin s.cameraRotation.phi * Real.sin s.cameraRotation.theta) ^ 2
          = r ^ 2 * (Real.sin s.cameraRotation.phi ^ 2
              * (Real.sin s.cameraRotation.theta ^ 2 + Real.cos s.cameraRotation.theta ^ 2)
              + Real.cos s.cameraRotation.phi ^ 2) := by ring
      rw [e, h2, mul_one, h1, mul_one]
    rw [hsq, Real.sqrt_sq hr0]

/-- An instance of C14: the initial orbit state. -/
theorem free_camera_on_sphere_witness :
    (⟨Real.pi, Real.sqrt, Real.sin, Real.cos⟩ : JSMath ℝ).sin = Real.sin ∧ (⟨Real.pi, Real.sqrt, Real.sin, Real.cos⟩ : JSMath ℝ).cos = Real.cos ∧
    (initialState ⟨Real.pi, Real.sqrt, Real.sin, Real.cos⟩ : State ℝ).focusedPlanet = none ∧
    (initialState ⟨Real.pi, Real.sqrt, Real.sin, Real.cos⟩ : State ℝ).cameraRotation.radius = fin 600 ∧ (0 : ℝ) ≤ 600 ∧
    (updateCameraPosition ⟨Real.pi, Real.sqrt, Real.sin, Real.cos⟩ (initialState ⟨Real.pi, Real.sqrt, Real.sin, Real.cos⟩ : State ℝ)).camera.lookAt
      = some ⟨fin 0, fin 0, fin 0⟩ :=
  ⟨rfl, rfl, rfl, rfl, by norm_num,
   (free_camera_on_sphere ⟨Real.pi, Real.sqrt, Real.sin, Real.cos⟩ rfl rfl (initialState ⟨Real.pi, Real.sqrt, Real.sin, Real.cos⟩) 600 earth rfl rfl (by norm_num)).2.1⟩

/-! ## Focus easing (C15) -/

theorem targetCamPos_congr (M : JSMath α) {s s' : State α} (p : Planet α)
    (targetPos : Vector3 α) (h : s'.cameraRotation = s.cameraRotation) :
    targetCamPos M s' p targetPos = targetCamPos M s p targetPos := by
  simp [targetCamPos, focusFactor, h]

/-- One frame while focused, for a finite camera position and a finite ideal position. -/
theorem animate_focused (M : JSMath α) (s : State α) (p : Planet α) (targetPos : Vector3 α)
    (x y z ix iy iz : α) (hfocus : s.focusedPlanet = some p)
    (hpos : s.camera.position = ⟨fin x, fin y, fin z⟩)
    (hideal : targetCamPos M s p targetPos = ⟨fin ix, fin iy, fin iz⟩) :
    animate M s targetPos =
      { s with camera :=
          { position :=
              ⟨fin (x + (ix - x) * 0.05), fin (y + (iy - y) * 0.05), fin (z + (iz - z) * 0.05)⟩
            lookAt := some ⟨fin targetPos.x, fin targetPos.y, fin targetPos.z⟩ } } := by
  simp [animate, hfocus, hideal, hpos, Vector3.lerp]

/-- The state after `n` frames with a fixed body position, for a finite camera position
and a finite ideal position: focus and orbit state are kept, and the offset of the camera
from the ideal position is the initial one times `0.95 ^ n`. -/
theorem animate_iterate (M : JSMath α) (s : State α) (p : Planet α) (targetPos : Vector3 α)
    (x y z ix iy iz : α) (hfocus : s.focusedPlanet = some p)
    (hpos : s.camera.position = ⟨fin x, fin y, fin z⟩)
    (hideal : targetCamPos M s p targetPos = ⟨fin ix, fin iy, fin iz⟩) (n : ℕ) :
    ((fun s' => animate M s' targetPos)^[n] s).focusedPlanet = some p ∧
    ((fun s' => animate M s' targetPos)^[n] s).cameraRotation = s.cameraRotation ∧
    ((fun s' => animate M s' targetPos)^[n] s).camera.position =
      ⟨fin (ix + 0.95 ^ n * (x - ix)), fin (iy + 0.95 ^ n * (y - iy)),
       fin (iz + 0.95 ^ n * (z - iz))⟩ := by
  induction n with
  | zero => simpa using ⟨hfocus, hpos⟩
  | succ n ih =>
    obtain ⟨hf, hc, hp⟩ := ih
    rw [Function.iterate_succ_apply']
    rw [animate_focused M _ p targetPos _ _ _ ix iy iz hf hp
      (by rw [targetCamPos_congr M p targetPos hc]; exact hideal)]
    refine ⟨hf, hc, ?_⟩
    simp only [Vector3.mk.injEq, JSNum.fin.injEq]
    refine ⟨?_, ?_, ?_⟩ <;> ring

/-- C15: in a frame while a body is focused, the new camera position is
`old + (ideal - old) * 0.05` (the update takes no elapsed time) and the look-at target is
the body's position of that frame.  If the body's world position and the orbit state stay
fixed, then after `n` frames the offset of the camera from the ideal position is exactly
`0.95 ^ n` times the initial offset, the Euclidean distance to the ideal position is
`0.95 ^ n` times the initial distance, and it does not increase from one frame to the
next.  (Camera position and ideal position are finite numbers.) -/
theorem focus_easing (M : JSMath ℝ) (s : State ℝ) (p : Planet ℝ) (targetPos : Vector3 ℝ)
    (x y z ix iy iz : ℝ) (n : ℕ) (hfocus : s.focusedPlanet = some p)
    (hpos : s.camera.position = ⟨fin x, fin y, fin z⟩)
    (hideal : targetCamPos M s p targetPos = ⟨fin ix, fin iy, fin iz⟩) :
    (animate M s targetPos).camera.position =
      ⟨fin (x + (ix - x) * 0.05), fin (y + (iy - y) * 0.05), fin (z + (iz - z) * 0.05)⟩ ∧
    (animate M s targetPos).camera.lookAt =
      some ⟨fin targetPos.x, fin targetPos.y, fin targetPos.z⟩ ∧
    ((fun s' => animate M s' targetPos)^[n] s).camera.position =
      ⟨fin (ix + 0.95 ^ n * (x - ix)), fin (iy + 0.95 ^ n * (y - iy)),
       fin (iz + 0.95 ^ n * (z - iz))⟩ ∧
    Real.sqrt ((0.95 ^ n * (x - ix)) ^ 2 + (0.95 ^ n * (y - iy)) ^ 2
        + (0.95 ^ n * (z - iz)) ^ 2)
      = 0.95 ^ n * Real.sqrt ((x - ix) ^ 2 + (y - iy) ^ 2 + (z - iz) ^ 2) ∧
    Real.sqrt ((0.95 ^ (n + 1) * (x - ix)) ^ 2 + (0.95 ^ (n + 1) * (y - iy)) ^ 2
        + (0.95 ^ (n + 1) * (z - iz)) ^ 2)
      ≤ Real.sqrt ((0.95 ^ n * (x - ix)) ^ 2 + (0.95 ^ n * (y - iy)) ^ 2
        + (0.95 ^ n * (z - iz)) ^ 2) := by
  have hscale : ∀ k : ℕ,
      Real.sqrt ((0.95 ^ k * (x - ix)) ^ 2 + (0.95 ^ k * (y - iy)) ^ 2
          + (0.95 ^ k * (z - iz)) ^ 2)
        = 0.95 ^ k * Real.sqrt ((x - ix) ^ 2 + (y - iy) ^ 2 + (z - iz) ^ 2) := by
    intro k
    have hk : (0 : ℝ) ≤ 0.95 ^ k := pow_nonneg (by norm_num) k
    have e : (0.95 ^ k * (x - ix)) ^ 2 + (0.95 ^ k * (y - iy)) ^ 2
        + (0.95 ^ k * (z - iz)) ^ 2
        = (0.95 ^ k) ^ 2 * ((x - ix) ^ 2 + (y - iy) ^ 2 + (z - iz) ^ 2) := by ring
    rw [e, Real.sqrt_mul (sq_nonneg _), Real.sqrt_sq hk]
  have hone := animate_focused M s p targetPos x y z ix iy iz hfocus hpos hideal
  refine ⟨by rw [hone], by rw [hone],
    (animate_iterate M s p targetPos x y z ix iy iz hfocus hpos hideal n).2.2, hscale n, ?_⟩
  rw [hscale (n + 1), hscale n, pow_succ, mul_assoc]
  have hk : (0 : ℝ) ≤ 0.95 ^ n := pow_nonneg (by norm_num) n
  have hd : 0 ≤ Real.sqrt ((x - ix) ^ 2 + (y - iy) ^ 2 + (z - iz) ^ 2) := Real.sqrt_nonneg _
  have hle : 0.95 * Real.sqrt ((x - ix) ^ 2 + (y - iy) ^ 2 + (z - iz) ^ 2)
      ≤ Real.sqrt ((x - ix) ^ 2 + (y - iy) ^ 2 + (z - iz) ^ 2) := by linarith
  exact mul_le_mul_of_nonneg_left hle hk

/-- An instance of C15: Earth focused from the initial state, at world position
`(50, 0, 0)`, two frames. -/
theorem focus_easing_witness :
    ({ initialState ⟨Real.pi, Real.sqrt, Real.sin, Real.cos⟩ with focusedPlanet := some earth } : State ℝ).focusedPlanet
      = some earth ∧
    ({ initialState ⟨Real.pi, Real.sqrt, Real.sin, Real.cos⟩ with focusedPlanet := some earth } : State ℝ).camera.position
      = ⟨fin 0, fin 300, fin 600⟩ ∧
    targetCamPos ⟨Real.pi, Real.sqrt, Real.sin, Real.cos⟩ ({ initialState ⟨Real.pi, Real.sqrt, Real.sin, Real.cos⟩ with focusedPlanet := some earth } : State ℝ) earth
        ⟨50, 0, 0⟩
      = ⟨fin (50 + Max.max (6.3 * 4) (600 * 0.1) * Real.sin (Real.pi / 4)
              * Real.cos (Real.pi / 4)),
         fin (0 + Max.max (6.3 * 4) (600 * 0.1) * Real.cos (Real.pi / 4)),
         fin (0 + Max.max (6.3 * 4) (600 * 0.1) * Real.sin (Real.pi / 4)
              * Real.sin (Real.pi / 4))⟩ ∧
    ((fun s' => animate ⟨Real.pi, Real.sqrt, Real.sin, Real.cos⟩ s' ⟨50, 0, 0⟩)^[2]
        ({ initialState ⟨Real.pi, Real.sqrt, Real.sin, Real.cos⟩ with focusedPlanet := some earth } : State ℝ)).camera.position
      = ⟨fin ((50 + Max.max (6.3 * 4) (600 * 0.1) * Real.sin (Real.pi / 4)
              * Real.cos (Real.pi / 4))
            + 0.95 ^ 2 * (0 - (50 + Max.max (6.3 * 4) (600 * 0.1) * Real.sin (Real.pi / 4)
              * Real.cos (Real.pi / 4)))),
         fin ((0 + Max.max (6.3 * 4) (600 * 0.1) * Real.cos (Real.pi / 4))
            + 0.95 ^ 2 * (300 - (0 + Max.max (6.3 * 4) (600 * 0.1)
              * Real.cos (Real.pi / 4)))),
         fin ((0 + Max.max (6.3 * 4) (600 * 0.1) * Real.sin (Real.pi / 4)
              * Real.sin (Real.pi / 4))
            + 0.95 ^ 2 * (600 - (0 + Max.max (6.3 * 4) (600 * 0.1) * Real.sin (Real.pi / 4)
              * Real.sin (Real.pi / 4))))⟩ :=
  ⟨rfl, rfl, rfl,
   (focus_easing ⟨Real.pi, Real.sqrt, Real.sin, Real.cos⟩ ({ initialState ⟨Real.pi, Real.sqrt, Real.sin, Real.cos⟩ with focusedPlanet := some earth } : State ℝ) earth
      ⟨50, 0, 0⟩ 0 300 600 _ _ _ 2 rfl rfl rfl).2.2.1⟩

end Travelar
